import Mathlib

/-!
Verification development for the browser-based AI-assistant application
(SpectrixDev/AI-Assistant-Project).  The TypeScript services are shallowly
embedded in Lean: stateful methods become pure state-passing functions,
network calls become explicit `Except`/`Option` parameters that carry the
provider's outcome, JavaScript `Date` parsing is modelled over a fixed
local-timezone offset (minutes east of UTC), and JavaScript strings are
modelled as Lean strings (ASCII case folding and ASCII whitespace classes).
-/

namespace AIAssistant

/-! ## JavaScript string helpers -/

/-- The JavaScript word-character class `\w` (ASCII letters, digits, `_`). -/
def wchar (c : Char) : Bool :=
  c.isAlpha || c.isDigit || c = '_'

/-- The JavaScript whitespace class `\s`, restricted to its ASCII members
(space, tab, line feed, carriage return, form feed, vertical tab). -/
def schar (c : Char) : Bool :=
  c = ' ' || c = '\t' || c = '\n' || c = '\r' || c = '\x0c' || c = '\x0b'

/-- `String.prototype.trim`: drop leading and trailing whitespace. -/
def jsTrim (s : String) : String :=
  String.mk (((s.data.dropWhile (fun c => schar c)).reverse.dropWhile
    (fun c => schar c)).reverse)

/-- Does `sub` occur at the start of `l`? -/
def listStartsWith : List Char → List Char → Bool
  | [], _ => true
  | _ :: _, [] => false
  | a :: as, b :: bs => a = b && listStartsWith as bs

/-- Does `sub` occur somewhere inside `l`? -/
def listHasSub (sub : List Char) : List Char → Bool
  | [] => sub.isEmpty
  | b :: bs => listStartsWith sub (b :: bs) || listHasSub sub bs

/-- `String.prototype.includes`. -/
def jsIncludes (s sub : String) : Bool :=
  listHasSub sub.data s.data

/-- Truthy test for an optional JavaScript string (`undefined` and `""` are
falsy). -/
def strTruthy : Option String → Bool
  | none => false
  | some s => s ≠ ""

/-- JavaScript `a || b` over optional strings: `b` when `a` is absent or
empty. -/
def jsOrStr (a : Option String) (b : Option String) : Option String :=
  if strTruthy a then a else b

/-- Everything before the first `'T'` (the JavaScript idiom
`s.split('T')[0]`). -/
def beforeT (s : String) : String :=
  String.mk (s.data.takeWhile (fun c => c ≠ 'T'))

/-- Everything after the first `'T'`, or `none` when there is no `'T'`
(`s.split('T')[1]`). -/
def afterT (s : String) : Option String :=
  match s.data.dropWhile (fun c => c ≠ 'T') with
  | [] => none
  | _ :: rest => some (String.mk rest)

/-- `s.substring(0, n)`. -/
def jsSubstringTo (s : String) (n : Nat) : String :=
  String.mk (s.data.take n)

end AIAssistant

namespace AIAssistant

/-! ## Calendar arithmetic

`new Date(...)`/`toISOString` are modelled with proleptic-Gregorian epoch
arithmetic (seconds since 1970-01-01T00:00:00Z).  The runtime's local
timezone is an explicit parameter `tz`, the offset east of UTC in minutes;
daylight-saving transitions are outside the model (a fixed offset). -/

/-- Is `y` a Gregorian leap year? -/
def isLeapYear (y : Int) : Bool :=
  (y % 4 = 0 && y % 100 ≠ 0) || y % 400 = 0

/-- Days in month `m` (1..12) of year `y`. -/
def daysInMonth (y : Int) (m : Nat) : Nat :=
  if m = 1 then 31 else if m = 2 then (if isLeapYear y then 29 else 28)
  else if m = 3 then 31 else if m = 4 then 30 else if m = 5 then 31
  else if m = 6 then 30 else if m = 7 then 31 else if m = 8 then 31
  else if m = 9 then 30 else if m = 10 then 31 else if m = 11 then 30
  else 31

/-- Days since 1970-01-01 of the civil date `y-m-d` (standard
days-from-civil algorithm). -/
def daysFromCivil (y : Int) (m d : Nat) : Int :=
  let y1 : Int := if m ≤ 2 then y - 1 else y
  let era : Int := (if y1 ≥ 0 then y1 else y1 - 399) / 400
  let yoe : Int := y1 - era * 400
  let mp : Int := (Int.ofNat m + 9) % 12
  let doy : Int := (153 * mp + 2) / 5 + Int.ofNat d - 1
  let doe : Int := yoe * 365 + yoe / 4 - yoe / 100 + doy
  era * 146097 + doe - 719468

/-- Civil date `(y, m, d)` of a count of days since 1970-01-01 (standard
civil-from-days algorithm; inverse of `daysFromCivil`). -/
def civilFromDays (z0 : Int) : Int × Nat × Nat :=
  let z := z0 + 719468
  let era : Int := (if z ≥ 0 then z else z - 146096) / 146097
  let doe : Int := z - era * 146097
  let yoe : Int := (doe - doe / 1460 + doe / 36524 - doe / 146096) / 365
  let y : Int := yoe + era * 400
  let doy : Int := doe - (365 * yoe + yoe / 4 - yoe / 100)
  let mp : Int := (5 * doy + 2) / 153
  let d : Int := doy - (153 * mp + 2) / 5 + 1
  let m : Int := if mp < 10 then mp + 3 else mp - 9
  ((if m ≤ 2 then y + 1 else y), m.toNat, d.toNat)

/-- Seconds since the epoch of the UTC instant `y-m-d h:mi:s`. -/
def epochOfCivil (y : Int) (m d h mi s : Nat) : Int :=
  daysFromCivil y m d * 86400 + Int.ofNat h * 3600 + Int.ofNat mi * 60
    + Int.ofNat s

/-- Left-pad the decimal rendering of `n` with zeros to width `w`. -/
def padNum (w : Nat) (n : Nat) : String :=
  let s := toString n
  String.mk (List.replicate (w - s.length) '0') ++ s

/-- `Date.prototype.toISOString().split('.')[0]` of an epoch-seconds value:
the `YYYY-MM-DDTHH:MM:SS` UTC rendering.  Only nonnegative epochs (years
1970 and later) are in the model. -/
def isoOfEpoch (e : Int) : String :=
  let days := e.fdiv 86400
  let secs := (e.emod 86400).toNat
  let c := civilFromDays days
  padNum 4 c.1.toNat ++ "-" ++ padNum 2 c.2.1 ++ "-" ++ padNum 2 c.2.2
    ++ "T" ++ padNum 2 (secs / 3600) ++ ":" ++ padNum 2 (secs / 60 % 60)
    ++ ":" ++ padNum 2 (secs % 60)

/-- Parse a run of exactly `n` ASCII digits. -/
def parseDigits (n : Nat) (l : List Char) : Option (Nat × List Char) :=
  let pre := l.take n
  if pre.length = n && pre.all (fun c => c.isDigit) then
    some (pre.foldl (fun a c => a * 10 + (c.toNat - 48)) 0, l.drop n)
  else none

/-- Parse a trailing UTC-offset designator: `some none` for no designator
(local time), `some (some o)` for `Z` or `±HH:MM` (offset `o` seconds east
of UTC), `none` for a malformed tail. -/
def offsetSuffix (l : List Char) : Option (Option Int) :=
  match l with
  | [] => some none
  | ['Z'] => some (some 0)
  | c :: rest =>
    if c = '+' || c = '-' then do
      let (oh, r1) ← parseDigits 2 rest
      let r2 ← match r1 with | ':' :: t => some t | _ => none
      let (om, r3) ← parseDigits 2 r2
      if !r3.isEmpty || oh > 23 || om > 59 then none
      else
        some (some ((if c = '-' then (-1 : Int) else 1)
          * (Int.ofNat oh * 3600 + Int.ofNat om * 60)))
    else none

/-- Parse `new Date(s).getTime()` (in seconds) for the ECMAScript
date-time string format, at local offset `tz` minutes east of UTC:
`YYYY-MM-DD` is UTC midnight (date-only rule), `YYYY-MM-DDTHH:MM[:SS]`
without a designator is local time, and a trailing `Z` or `±HH:MM` fixes
the offset.  Strings of any other shape — in particular a date directly
concatenated with a time, such as `2024-06-1509:00` — are an Invalid Date
(`NaN`), modelled as `none`. -/
def jsDateParse (s : String) (tz : Int) : Option Int := do
  let (y, r1) ← parseDigits 4 s.data
  let r2 ← match r1 with | '-' :: t => some t | _ => none
  let (mo, r3) ← parseDigits 2 r2
  let r4 ← match r3 with | '-' :: t => some t | _ => none
  let (d, r5) ← parseDigits 2 r4
  if mo < 1 || 12 < mo || d < 1 || daysInMonth (Int.ofNat y) mo < d then
    none
  else
    match r5 with
    | [] => some (epochOfCivil (Int.ofNat y) mo d 0 0 0)
    | 'T' :: r6 => do
      let (h, r7) ← parseDigits 2 r6
      let r8 ← match r7 with | ':' :: t => some t | _ => none
      let (mi, r9) ← parseDigits 2 r8
      if h > 23 || mi > 59 then none
      else do
        let (sec, r11) ← match r9 with
          | ':' :: r10 => do
            let (sec, r11) ← parseDigits 2 r10
            if sec > 59 then none else some (sec, r11)
          | _ => some (0, r9)
        let off ← offsetSuffix r11
        let wall := epochOfCivil (Int.ofNat y) mo d h mi sec
        match off with
        | none => some (wall - tz * 60)
        | some o => some (wall - o)
    | _ => none

/-- `Date.prototype.getHours()` at local offset `tz`: the local hour field
of epoch `e`. -/
def jsGetHours (e tz : Int) : Int :=
  ((e + tz * 60).emod 86400) / 3600

/-- `Date.prototype.setHours(h)` at local offset `tz`: replace the local
hour field (values ≥ 24 roll into the following day, as in JavaScript). -/
def jsSetHours (e tz h : Int) : Int :=
  let loc := e + tz * 60
  let secsOfDay := loc.emod 86400
  (loc - secsOfDay) + h * 3600 + secsOfDay.emod 3600 - tz * 60

end AIAssistant

namespace AIAssistant

/-! ## JSON values and `JSON.parse`

`JSON.parse` is modelled by an executable recursive-descent parser over the
JSON grammar (RFC 8259, which is what the ECMAScript builtin accepts).
Numbers keep their source literal, since the application only ever tests
numbers for truthiness.  Object fields keep duplicates in order; property
access returns the last binding, as in JavaScript. -/

inductive JValue where
  | jnull : JValue
  | jbool : Bool → JValue
  | jnum : String → JValue
  | jstr : String → JValue
  | jarr : List JValue → JValue
  | jobj : List (String × JValue) → JValue

/-- JavaScript property access `v[key]`: the last binding of `key` when `v`
is an object, otherwise `undefined` (`none`). -/
def jGet (v : JValue) (key : String) : Option JValue :=
  match v with
  | .jobj fields => (fields.reverse.find? (fun p => p.1 = key)).map Prod.snd
  | _ => none

/-- Is a JSON numeric literal zero (all mantissa digits `0`)? -/
def jnumIsZero (s : String) : Bool :=
  (s.data.takeWhile (fun c => c ≠ 'e' && c ≠ 'E')).all
    (fun c => !(c.isDigit && c ≠ '0'))

/-- JavaScript truthiness of a parsed JSON value. -/
def jTruthy : JValue → Bool
  | .jnull => false
  | .jbool b => b
  | .jnum s => !jnumIsZero s
  | .jstr s => s ≠ ""
  | .jarr _ => true
  | .jobj _ => true

/-- `typeof v === 'object'` for a parsed JSON value (objects, arrays and
`null`). -/
def jTypeofObject : JValue → Bool
  | .jnull => true
  | .jarr _ => true
  | .jobj _ => true
  | _ => false

/-- JSON insignificant whitespace. -/
def jsonWs (c : Char) : Bool :=
  c = ' ' || c = '\t' || c = '\n' || c = '\r'

/-- Skip JSON whitespace. -/
def skipWs (l : List Char) : List Char :=
  l.dropWhile jsonWs

/-- Decode one hex digit. -/
def hexVal (c : Char) : Option Nat :=
  if c.isDigit then some (c.toNat - 48)
  else if 'a' ≤ c && c ≤ 'f' then some (c.toNat - 87)
  else if 'A' ≤ c && c ≤ 'F' then some (c.toNat - 70)
  else none

/-- Parse the body of a JSON string after the opening quote.  Lone
surrogates (which JavaScript strings tolerate but Lean strings cannot
carry) are mapped to U+FFFD; no string in this development contains one. -/
def parseJString : Nat → List Char → Option (List Char × List Char)
  | 0, _ => none
  | _ + 1, [] => none
  | fuel + 1, c :: rest =>
    if c = '"' then some ([], rest)
    else if c = '\\' then
      match rest with
      | [] => none
      | e :: rest2 =>
        let simple : Option Char :=
          if e = '"' then some '"' else if e = '\\' then some '\\'
          else if e = '/' then some '/' else if e = 'b' then some '\x08'
          else if e = 'f' then some '\x0c' else if e = 'n' then some '\n'
          else if e = 'r' then some '\r' else if e = 't' then some '\t'
          else none
        match simple with
        | some ch => do
          let (tail, rem) ← parseJString fuel rest2
          pure (ch :: tail, rem)
        | none =>
          if e = 'u' then
            match rest2 with
            | h1 :: h2 :: h3 :: h4 :: rest3 => do
              let v1 ← hexVal h1
              let v2 ← hexVal h2
              let v3 ← hexVal h3
              let v4 ← hexVal h4
              let code := ((v1 * 16 + v2) * 16 + v3) * 16 + v4
              let ch := if 0xd800 ≤ code && code ≤ 0xdfff then '�'
                        else Char.ofNat code
              let (tail, rem) ← parseJString fuel rest3
              pure (ch :: tail, rem)
            | _ => none
          else none
    else if c.toNat < 0x20 then none
    else do
      let (tail, rem) ← parseJString fuel rest
      pure (c :: tail, rem)

/-- Parse a JSON number literal, returning its source text. -/
def parseJNumber (l : List Char) : Option (List Char × List Char) :=
  let (sign, r1) : List Char × List Char := match l with
    | '-' :: t => (['-'], t)
    | _ => ([], l)
  let intPart := r1.takeWhile (fun c => c.isDigit)
  let r2 := r1.dropWhile (fun c => c.isDigit)
  if intPart.isEmpty then none
  else if intPart.length > 1 && intPart.headI = '0' then none
  else
    let (fracPart, r3) : List Char × List Char := match r2 with
      | '.' :: t =>
        let ds := t.takeWhile (fun c => c.isDigit)
        if ds.isEmpty then (['x'], [])  -- failure marker
        else ('.' :: ds, t.dropWhile (fun c => c.isDigit))
      | _ => ([], r2)
    if fracPart = ['x'] then none
    else
      match r3 with
      | e :: t =>
        if e = 'e' || e = 'E' then
          let (es, t2) : List Char × List Char := match t with
            | '+' :: u => (['+'], u)
            | '-' :: u => (['-'], u)
            | _ => ([], t)
          let ds := t2.takeWhile (fun c => c.isDigit)
          if ds.isEmpty then none
          else some (sign ++ intPart ++ fracPart ++ e :: es ++ ds,
                     t2.dropWhile (fun c => c.isDigit))
        else some (sign ++ intPart ++ fracPart, r3)
      | [] => some (sign ++ intPart ++ fracPart, r3)

mutual

/-- Recursive-descent JSON value parser (fuel-indexed). -/
def parseJValue : Nat → List Char → Option (JValue × List Char)
  | 0, _ => none
  | fuel + 1, l =>
    match skipWs l with
    | [] => none
    | c :: rest =>
      if c = 'n' then
        if listStartsWith "ull".data rest then
          some (.jnull, rest.drop 3)
        else none
      else if c = 't' then
        if listStartsWith "rue".data rest then
          some (.jbool true, rest.drop 3)
        else none
      else if c = 'f' then
        if listStartsWith "alse".data rest then
          some (.jbool false, rest.drop 4)
        else none
      else if c = '"' then do
        let (body, rem) ← parseJString (rest.length + 1) rest
        pure (.jstr (String.mk body), rem)
      else if c = '[' then
        match skipWs rest with
        | ']' :: rem => some (.jarr [], rem)
        | _ => do
          let (items, rem) ← parseJItems fuel rest
          pure (.jarr items, rem)
      else if c = '{' then
        match skipWs rest with
        | '}' :: rem => some (.jobj [], rem)
        | _ => do
          let (fields, rem) ← parseJFields fuel rest
          pure (.jobj fields, rem)
      else do
        let (lit, rem) ← parseJNumber (c :: rest)
        pure (.jnum (String.mk lit), rem)

/-- One-or-more comma-separated array items, consuming the closing `]`. -/
def parseJItems : Nat → List Char → Option (List JValue × List Char)
  | 0, _ => none
  | fuel + 1, l => do
    let (v, r1) ← parseJValue fuel l
    match skipWs r1 with
    | ',' :: r2 => do
      let (vs, rem) ← parseJItems fuel r2
      pure (v :: vs, rem)
    | ']' :: rem => pure ([v], rem)
    | _ => none

/-- One-or-more comma-separated object members, consuming the closing
`}`. -/
def parseJFields : Nat → List Char → Option (List (String × JValue) × List Char)
  | 0, _ => none
  | fuel + 1, l => do
    match skipWs l with
    | '"' :: r1 => do
      let (key, r2) ← parseJString (r1.length + 1) r1
      match skipWs r2 with
      | ':' :: r3 => do
        let (v, r4) ← parseJValue fuel r3
        match skipWs r4 with
        | ',' :: r5 => do
          let (fs, rem) ← parseJFields fuel r5
          pure ((String.mk key, v) :: fs, rem)
        | '}' :: rem => pure ([(String.mk key, v)], rem)
        | _ => none
      | _ => none
    | _ => none

end

/-- `JSON.parse`: parse a complete JSON document, `none` on a syntax
error. -/
def jparse (s : String) : Option JValue :=
  match parseJValue (s.length + 1) s.data with
  | some (v, rest) => if (skipWs rest).isEmpty then some v else none
  | none => none

end AIAssistant

namespace AIAssistant

/-! ## Assistant settings and the Gemini chat adapter
(`services/geminiService.ts`) -/

inductive MimeType where
  | textPlain : MimeType
  | applicationJson : MimeType
deriving DecidableEq

/-- `AssistantSettings` from `types.ts`.  The numeric generation settings
are only ever compared for equality, so they are modelled over `Rat`. -/
structure AssistantSettings where
  instanceName : Option String
  personality : String
  responseMimeType : MimeType
  temperature : Option Rat
  topK : Option Rat
  topP : Option Rat
  seed : Option Rat
  enableGoogleSearch : Bool
  disableThinking : Bool
  googleClientId : Option String
  googleApiKey : Option String
deriving DecidableEq

inductive Role where
  | user : Role
  | model : Role
  | system : Role
deriving DecidableEq

structure ChatMessage where
  id : String
  role : Role
  text : String
  timestamp : Int
deriving DecidableEq

/-- One entry of the history handed to `ai.chats.create` (only user and
model turns). -/
structure ChatTurn where
  role : Role
  text : String
deriving DecidableEq

/-- The effective response MIME type: `initializeChat` overrides
`application/json` to `text/plain` when Google Search is enabled. -/
def resolveMime (s : AssistantSettings) : MimeType :=
  if s.enableGoogleSearch && s.responseMimeType = .applicationJson then
    .textPlain
  else s.responseMimeType

/-- The settings as recorded after creating a session: the supplied
settings with the resolved MIME type
(`this.currentSettings = {...settings, responseMimeType: resolvedResponseMimeType}`). -/
def resolveSettings (s : AssistantSettings) : AssistantSettings :=
  { s with responseMimeType := resolveMime s }

/-- The `chatCreationConfig` object passed to `ai.chats.create`. -/
structure ChatConfig where
  systemInstruction : String
  toolGoogleSearch : Bool
  temperature : Option Rat
  topK : Option Rat
  topP : Option Rat
  seed : Option Rat
  responseMimeType : MimeType
  thinkingBudget : Option Nat
deriving DecidableEq

def chatCreationConfig (s : AssistantSettings) : ChatConfig :=
  { systemInstruction := s.personality
    toolGoogleSearch := s.enableGoogleSearch
    temperature := s.temperature
    topK := s.topK
    topP := s.topP
    seed := s.seed
    responseMimeType := resolveMime s
    thinkingBudget := if s.disableThinking then some 0 else none }

/-- A created chat session: its creation config and initial history. -/
structure ChatSession where
  config : ChatConfig
  history : List ChatTurn
deriving DecidableEq

/-- The mutable fields of `GeminiService`. -/
structure GeminiState where
  chat : Option ChatSession
  chatHistory : List ChatTurn
  currentSettings : Option AssistantSettings
deriving DecidableEq

/-- `GeminiService.initializeChat`. -/
def initChat (st : GeminiState) (s : AssistantSettings) : GeminiState :=
  { chat := some { config := chatCreationConfig s, history := st.chatHistory }
    chatHistory := st.chatHistory
    currentSettings := some (resolveSettings s) }

/-- `GeminiService.settingsHaveChanged`. -/
def settingsHaveChanged (st : GeminiState) (ns : AssistantSettings) : Bool :=
  match st.currentSettings with
  | none => true
  | some cs =>
    let effMime :=
      if ns.enableGoogleSearch && ns.responseMimeType = .applicationJson then
        MimeType.textPlain
      else ns.responseMimeType
    cs.personality ≠ ns.personality
      || cs.temperature ≠ ns.temperature
      || cs.topK ≠ ns.topK
      || cs.topP ≠ ns.topP
      || cs.seed ≠ ns.seed
      || cs.responseMimeType ≠ effMime
      || cs.enableGoogleSearch ≠ ns.enableGoogleSearch
      || cs.disableThinking ≠ ns.disableThinking
      || cs.googleClientId ≠ ns.googleClientId
      || cs.googleApiKey ≠ ns.googleApiKey

/-- The history rebuilt from the supplied messages when the session is
re-created: only user and model turns. -/
def historyOfMessages (msgs : List ChatMessage) : List ChatTurn :=
  (msgs.filter (fun m => m.role = .user || m.role = .model)).map
    (fun m => { role := m.role, text := m.text })

/-- The session-management prefix of `GeminiService.sendMessage`: re-create
the chat (rebuilding history) when there is no session or the settings
changed; otherwise leave the state alone.  The returned flag records
whether the session was re-created. -/
def sendMessagePre (st : GeminiState) (s : AssistantSettings)
    (msgs : List ChatMessage) : GeminiState × Bool :=
  if st.chat.isNone || settingsHaveChanged st s then
    (initChat { st with chatHistory := historyOfMessages msgs } s, true)
  else (st, false)

end AIAssistant

namespace AIAssistant

/-! ## The markdown code-fence regex

`sendMessage` strips an optional fenced block with
`/^`+"```"+`(\w*)?\s*\n?(.*?)\n?\s*`+"```"+`$/s` before `JSON.parse`.  The
regex is modelled by a backtracking matcher with JavaScript priorities:
greedy `\w*`, `\s*`, `\n?`, a lazy dot-all `(.*?)` capture, then greedy
`\n?`, `\s*`. -/

/-- Consume a literal, then continue. -/
def matchLit {α : Type} (lit : List Char) (k : List Char → Option α)
    (l : List Char) : Option α :=
  if listStartsWith lit l then k (l.drop lit.length) else none

/-- Greedy star over a character class: prefer consuming, backtrack one
character at a time. -/
def starG {α : Type} (p : Char → Bool) (k : List Char → Option α) :
    List Char → Option α
  | [] => k []
  | c :: cs =>
    if p c then
      match starG p k cs with
      | some r => some r
      | none => k (c :: cs)
    else k (c :: cs)

/-- Greedy optional character: prefer consuming. -/
def optG {α : Type} (p : Char → Bool) (k : List Char → Option α) :
    List Char → Option α
  | [] => k []
  | c :: cs =>
    if p c then
      match k cs with
      | some r => some r
      | none => k (c :: cs)
    else k (c :: cs)

/-- Lazy dot-all capture `(.*?)`: prefer the shortest capture, passing the
captured characters and the remainder to the continuation. -/
def lazyCap {α : Type} (k : List Char → List Char → Option α) :
    List Char → List Char → Option α
  | acc, [] => k acc.reverse []
  | acc, c :: cs =>
    match k acc.reverse (c :: cs) with
    | some r => some r
    | none => lazyCap k (c :: acc) cs

/-- Match the fence regex against the whole string, returning capture
group 2 (the fenced body). -/
def fenceMatch (s : List Char) : Option (List Char) :=
  matchLit "```".data (fun r1 =>
    starG wchar (fun r2 =>
      starG schar (fun r3 =>
        optG (fun c => c = '\n') (fun r4 =>
          lazyCap (fun mid rest =>
            optG (fun c => c = '\n') (fun r5 =>
              starG schar (fun r6 =>
                matchLit "```".data (fun r7 =>
                  if r7.isEmpty then some mid else none) r6) r5) rest)
            [] r4) r3) r2) r1) s

/-- The fence-stripping step of `sendMessage`: trim, and when the fence
regex matches with a non-empty (truthy) group 2, keep that group,
trimmed. -/
def stripFence (t : String) : String :=
  let s := jsTrim t
  match fenceMatch s.data with
  | some mid => if mid.isEmpty then s else jsTrim (String.mk mid)
  | none => s

/-- Truthiness of an optionally-present JSON property. -/
def truthyOpt : Option JValue → Bool
  | some v => jTruthy v
  | none => false

/-- Is `v.key` a string (`typeof v.key === 'string'`)? -/
def jFieldIsString (v : Option JValue) (key : String) : Bool :=
  match v with
  | some o =>
    match jGet o key with
    | some (.jstr _) => true
    | _ => false
  | none => false

/-- `GeminiService.isValidCalendarAction`. -/
def isValidCalendarAction (j : JValue) : Bool :=
  if !jTruthy j then false
  else
    match jGet j "action" with
    | some (.jstr a) =>
      if !(a = "add_event" || a = "update_event" || a = "delete_event") then
        false
      else if a = "add_event" then
        truthyOpt (jGet j "event")
          && jFieldIsString (jGet j "event") "title"
          && jFieldIsString (jGet j "event") "date"
      else if a = "update_event" then
        truthyOpt (jGet j "event_query")
          && jFieldIsString (jGet j "event_query") "title"
          && truthyOpt (jGet j "updates")
          && (match jGet j "updates" with
              | some u => jTypeofObject u
              | none => false)
      else
        truthyOpt (jGet j "event_query")
          && jFieldIsString (jGet j "event_query") "title"
    | _ => false

/-- The response-processing tail of `sendMessage`: when the session in use
is in JSON mode and the reply is non-empty, strip an optional fence, parse,
and keep the result when it is a valid calendar action. -/
def processModelResponse (cur : Option AssistantSettings) (text : String) :
    Option JValue :=
  if (match cur with
      | some cs => cs.responseMimeType = .applicationJson
      | none => false) && text ≠ "" then
    match jparse (stripFence text) with
    | some pj => if isValidCalendarAction pj then some pj else none
    | none => none
  else none

/-- The response structure of `GeminiService.sendMessage` (grounding
metadata is passed through unchanged and not modelled). -/
structure GeminiResponse where
  text : String
  parsedCalendarAction : Option JValue

/-- `GeminiService.sendMessage` on the success path: the provider's reply
text is an input.  Returns the updated service state and the response. -/
def sendMessage (st : GeminiState) (s : AssistantSettings)
    (msgs : List ChatMessage) (modelText : String) :
    GeminiState × GeminiResponse :=
  let st1 := (sendMessagePre st s msgs).1
  (st1,
   { text := modelText
     parsedCalendarAction := processModelResponse st1.currentSettings modelText })

end AIAssistant

namespace AIAssistant

/-! ## Google Calendar services

The repository contains two implementations of `GoogleCalendarService`:
a `gapi`-client-based one and a `fetch`-based one.  Both translate between
the app's `CalendarEvent` shape and the provider's event resources; they
differ in how a failed request is handled.  The network outcome of each
request is an explicit `Except` parameter. -/

/-- The app's `CalendarEvent` from `types.ts`. -/
structure CalendarEvent where
  id : String
  title : String
  date : String
  time : Option String
  description : String
  isGoogleEvent : Option Bool
  googleEventId : Option String
deriving DecidableEq

/-- `CalendarEventData` from `types.ts` (AI-provided event details). -/
structure CalendarEventData where
  title : String
  date : String
  time : Option String
  description : Option String
deriving DecidableEq

/-- `CalendarEventQuery` from `types.ts`. -/
structure CalendarEventQuery where
  title : String
  date : Option String
deriving DecidableEq

/-- `Partial<CalendarEventData>`: the `updates` object of an update
action (`none` = key absent). -/
structure CalendarEventUpdates where
  title : Option String
  date : Option String
  time : Option String
  description : Option String
deriving DecidableEq

/-- A provider event's `start`/`end` object. -/
structure GEventTime where
  date : Option String
  dateTime : Option String
deriving DecidableEq

/-- A provider event resource as returned by the calendar API (`start` and
`end` are modelled as `startTime`/`endTime`). -/
structure GItem where
  id : Option String
  summary : Option String
  description : Option String
  startTime : Option GEventTime
  endTime : Option GEventTime
deriving DecidableEq

/-- `x || "default"` for an optional string. -/
def jsOrDef (a : Option String) (b : String) : String :=
  match a with
  | some s => if s ≠ "" then s else b
  | none => b

/-- Template-literal interpolation of a possibly-undefined string
(JavaScript renders `undefined` as the text `undefined`). -/
def jsTemplate (o : Option String) : String :=
  o.getD "undefined"

/-- The item-to-`CalendarEvent` translation shared by `listEvents`,
`createEvent` and `updateEvent` in both service variants:
`date` is `start.date || start.dateTime.split('T')[0]`, `time` is the
`HH:MM` prefix of the part after `'T'` when `start.dateTime` is set. -/
def convertGItem (item : GItem) : CalendarEvent :=
  let sdt := item.startTime.bind (fun t => t.dateTime)
  { id := item.id.getD ""
    googleEventId := item.id
    title := jsOrDef item.summary "No Title"
    date := (jsOrStr (item.startTime.bind (fun t => t.date))
      (sdt.map beforeT)).getD ""
    time := match sdt with
      | some dt => if dt = "" then none
                   else (afterT dt).map (fun x => jsSubstringTo x 5)
      | none => none
    description := jsOrDef item.description ""
    isGoogleEvent := some true }

/-- The provider event resource built by `createEvent` (identical in both
variants): an all-day resource when no time is given, else a timed
resource whose end is computed by parsing the start as local time, adding
one to the hour field, and rendering the result in UTC.  `none` models the
`RangeError` thrown by `toISOString` when the start string is an Invalid
Date. -/
structure GoogleEventBody where
  summary : Option String
  description : Option String
  startDate : Option String
  startDateTime : Option String
  endDate : Option String
  endDateTime : Option String
deriving DecidableEq

def createEventBody (d : CalendarEventData) (tz : Int) :
    Option GoogleEventBody :=
  if strTruthy d.time then
    let t := d.time.getD ""
    let startStr := d.date ++ "T" ++ t ++ ":00"
    match jsDateParse startStr tz with
    | some e =>
      let e2 := jsSetHours e tz (jsGetHours e tz + 1)
      some { summary := some d.title
             description := d.description
             startDate := none
             endDate := none
             startDateTime := some startStr
             endDateTime := some (isoOfEpoch e2) }
    | none => none
  else
    some { summary := some d.title
           description := d.description
           startDate := some d.date
           endDate := some d.date
           startDateTime := none
           endDateTime := none }

/-- The `resourceToUpdate` built by `updateEvent` (identical in both
variants) from the fetched `existing` resource and the requested updates.
`none` models the `RangeError` thrown when an end instant must be rendered
but the involved date strings are Invalid Dates. -/
def buildUpdateResource (existing : GItem) (upd : CalendarEventUpdates)
    (tz : Int) : Option GoogleEventBody :=
  let st := existing.startTime.getD { date := none, dateTime := none }
  let en := existing.endTime.getD { date := none, dateTime := none }
  let base : GoogleEventBody :=
    { summary := upd.title.orElse (fun _ => existing.summary)
      description := upd.description.orElse (fun _ => existing.description)
      startDate := st.date
      startDateTime := st.dateTime
      endDate := en.date
      endDateTime := en.dateTime }
  let isDT := strTruthy st.dateTime
  if strTruthy upd.date || strTruthy upd.time then
    let newDate := jsOrStr upd.date
      (if isDT then st.dateTime.map beforeT else st.date)
    let newTime := match upd.time with
      | some t => some t
      | none =>
        if isDT then (st.dateTime.bind afterT).map (fun x => jsSubstringTo x 5)
        else none
    if strTruthy newTime then
      let sdt := jsTemplate newDate ++ "T" ++ jsTemplate newTime ++ ":00"
      match jsDateParse sdt tz with
      | none => none
      | some se =>
        let endEpoch : Option Int :=
          if strTruthy st.dateTime && strTruthy en.dateTime then
            match jsDateParse (st.dateTime.getD "") tz,
                  jsDateParse (en.dateTime.getD "") tz with
            | some s0, some e0 => some (se + (e0 - s0))
            | _, _ => none
          else some (se + 3600)
        match endEpoch with
        | none => none
        | some e2 =>
          some { base with
                 startDateTime := some sdt
                 endDateTime := some (isoOfEpoch e2)
                 startDate := none
                 endDate := none }
    else
      some { base with
             startDate := newDate
             endDate := newDate
             startDateTime := none
             endDateTime := none }
  else some base

/-! ### The `gapi`-based variant: errors are logged and re-thrown -/

/-- `listEvents` (gapi variant): an empty list when the API is not ready,
the translated items on success, and the error re-thrown on failure. -/
def gapiListEvents (ready : Bool) (net : Except String (List GItem)) :
    Except String (List CalendarEvent) :=
  if !ready then .ok []
  else
    match net with
    | .ok items => .ok (items.map convertGItem)
    | .error e => .error e

/-- `createEvent` (gapi variant). -/
def gapiCreateEvent (ready : Bool) (d : CalendarEventData) (tz : Int)
    (net : Except String GItem) : Except String (Option CalendarEvent) :=
  if !ready then .ok none
  else
    match createEventBody d tz with
    | none => .error "Invalid time value"
    | some _ =>
      match net with
      | .ok item => .ok (some (convertGItem item))
      | .error e => .error e

/-- `deleteEvent` (gapi variant): `false` when the API is not ready,
`true` on success, and the error re-thrown on failure. -/
def gapiDeleteEvent (ready : Bool) (net : Except String Unit) :
    Except String Bool :=
  if !ready then .ok false
  else
    match net with
    | .ok _ => .ok true
    | .error e => .error e

/-- `updateEvent` (gapi variant): both the fetch of the existing event and
the update request re-throw their errors. -/
def gapiUpdateEvent (ready : Bool) (upd : CalendarEventUpdates) (tz : Int)
    (netGet : Except String GItem) (netUpd : Except String GItem) :
    Except String (Option CalendarEvent) :=
  if !ready then .ok none
  else
    match netGet with
    | .error e => .error e
    | .ok existing =>
      match buildUpdateResource existing upd tz with
      | none => .error "Invalid time value"
      | some _ =>
        match netUpd with
        | .ok item => .ok (some (convertGItem item))
        | .error e => .error e

/-! ### The `fetch`-based variant: errors are logged and a default is
returned -/

/-- `listEvents` (fetch variant): `[]` without an auth header, `[]` when
the payload has no `items`, the translated items on success, and `[]` on a
network failure. -/
def fetchListEvents (auth : Bool)
    (net : Except String (Option (List GItem))) : List CalendarEvent :=
  if !auth then []
  else
    match net with
    | .ok (some items) => items.map convertGItem
    | .ok none => []
    | .error _ => []

/-- `createEvent` (fetch variant): `null` without auth, on a payload
without an `id`, or on a network failure. -/
def fetchCreateEvent (auth : Bool) (d : CalendarEventData) (tz : Int)
    (net : Except String GItem) : Except String (Option CalendarEvent) :=
  if !auth then .ok none
  else
    match createEventBody d tz with
    | none => .error "Invalid time value"
    | some _ =>
      match net with
      | .ok item =>
        .ok (if strTruthy item.id then some (convertGItem item) else none)
      | .error _ => .ok none

/-- `deleteEvent` (fetch variant): `false` without auth or on failure,
otherwise whether the response status is 204 or 200. -/
def fetchDeleteEvent (auth : Bool) (net : Except String Nat) : Bool :=
  if !auth then false
  else
    match net with
    | .ok status => status = 204 || status = 200
    | .error _ => false

/-- `updateEvent` (fetch variant): `null` without auth, when fetching the
existing event fails, on a payload without an `id`, or when the update
request fails.  The `Except.error` case models the `RangeError` thrown
while building the resource, which is outside both `try` blocks. -/
def fetchUpdateEvent (auth : Bool) (upd : CalendarEventUpdates) (tz : Int)
    (netGet : Except String GItem) (netUpd : Except String GItem) :
    Except String (Option CalendarEvent) :=
  if !auth then .ok none
  else
    match netGet with
    | .error _ => .ok none
    | .ok existing =>
      match buildUpdateResource existing upd tz with
      | none => .error "Invalid time value"
      | some _ =>
        match netUpd with
        | .ok item =>
          .ok (if strTruthy item.id then some (convertGItem item) else none)
        | .error _ => .ok none

end AIAssistant

namespace AIAssistant

/-! ## Google auth services

The repository contains two `GoogleAuthService` implementations: a PKCE
redirect-flow one (`services/googleAuthService.ts`) and a GSI
token-client one.  Only the token-store behaviour of `getAccessToken` is
modelled; `Date.now()` is the explicit parameter `now` (milliseconds). -/

/-- Token state of the PKCE variant: in-memory fields and the
`localStorage` entries (`google_access_token`, `google_token_expiry`,
`google_refresh_token`, `google_code_verifier`). -/
structure AuthStateA where
  accessToken : Option String
  tokenExpiryTime : Option Int
  refreshToken : Option String
  lsAccessToken : Option String
  lsTokenExpiry : Option String
  lsRefreshToken : Option String
  lsCodeVerifier : Option String
deriving DecidableEq

/-- `clearTokens` of the PKCE variant. -/
def clearTokensA (_st : AuthStateA) : AuthStateA :=
  { accessToken := none, tokenExpiryTime := none, refreshToken := none
    lsAccessToken := none, lsTokenExpiry := none, lsRefreshToken := none
    lsCodeVerifier := none }

/-- The guard of `getAccessToken`:
`this.accessToken && this.tokenExpiryTime && this.tokenExpiryTime > Date.now()`.
-/
def tokenValidA (st : AuthStateA) (now : Int) : Bool :=
  strTruthy st.accessToken
    && (match st.tokenExpiryTime with
        | some e => e ≠ 0 && e > now
        | none => false)

/-- `getAccessToken` of the PKCE variant: the token when the guard holds,
otherwise clear everything and return `null`. -/
def getAccessTokenA (st : AuthStateA) (now : Int) :
    Option String × AuthStateA :=
  if tokenValidA st now then (st.accessToken, st)
  else (none, clearTokensA st)

/-- Token state of the GSI variant: in-memory fields and the two
`localStorage` entries. -/
structure AuthStateB where
  accessToken : Option String
  tokenExpiryTime : Option Int
  lsAccessToken : Option String
  lsTokenExpiry : Option String
deriving DecidableEq

/-- The same truthy validity guard for the GSI variant. -/
def tokenValidB (st : AuthStateB) (now : Int) : Bool :=
  strTruthy st.accessToken
    && (match st.tokenExpiryTime with
        | some e => e ≠ 0 && e > now
        | none => false)

/-- `getAccessToken` of the GSI variant: the token when the guard holds;
otherwise the state is cleared (in-memory fields and the `localStorage`
entries) only under `if (this.accessToken)`, and `null` is returned. -/
def getAccessTokenB (st : AuthStateB) (now : Int) :
    Option String × AuthStateB :=
  if tokenValidB st now then (st.accessToken, st)
  else if st.accessToken.isSome then
    (none, { accessToken := none, tokenExpiryTime := none
             lsAccessToken := none, lsTokenExpiry := none })
  else (none, st)

end AIAssistant

namespace AIAssistant

/-! ## The App component's calendar handlers (`App.tsx`) -/

/-- The sort key `new Date(e.date + (e.time || '')).getTime()`: the
event's date concatenated directly (no separator) with its time, parsed as
a date.  `none` is `NaN` (Invalid Date). -/
def jsDateKey (tz : Int) (e : CalendarEvent) : Option Int :=
  jsDateParse (e.date ++ (e.time.getD "")) tz

/-- Is `comparator(a, b) > 0` for the sort comparator
`key(a) - key(b)`?  A comparison involving `NaN` is never positive. -/
def keyCmpGt (tz : Int) (a b : CalendarEvent) : Bool :=
  match jsDateKey tz a, jsDateKey tz b with
  | some x, some y => x - y > 0
  | _, _ => false

/-- Stable insertion with respect to the comparator: `x` moves past `y`
exactly when `comparator(y, x) > 0`. -/
def sortInsert (tz : Int) (x : CalendarEvent) :
    List CalendarEvent → List CalendarEvent
  | [] => [x]
  | y :: ys => if keyCmpGt tz y x then x :: y :: ys else y :: sortInsert tz x ys

/-- `Array.prototype.sort` with the date-key comparator, modelled as a
stable insertion sort (an element precedes another exactly when moving it
later is never forced by a positive comparator result; comparisons
involving an Invalid Date return `NaN`, which is not positive). -/
def jsSortCal (tz : Int) (l : List CalendarEvent) : List CalendarEvent :=
  l.foldl (fun acc x => sortInsert tz x acc) []

/-- ASCII `String.prototype.toLowerCase`. -/
def jsToLower (s : String) : String :=
  String.mk (s.data.map (fun c =>
    if 'A' ≤ c && c ≤ 'Z' then Char.ofNat (c.toNat + 32) else c))

/-- The match predicate of `removeCalendarEventByQuery` /
`updateCalendarEventByQuery`: Google-sourced events when signed in, local
events otherwise; case-insensitive title equality; and date equality when
the query carries a (truthy) date. -/
def eventMatches (signedIn : Bool) (q : CalendarEventQuery)
    (e : CalendarEvent) : Bool :=
  (if signedIn then e.isGoogleEvent = some true
   else !(e.isGoogleEvent = some true))
    && jsToLower e.title = jsToLower q.title
    && (!(strTruthy q.date) || some e.date = q.date)

/-- `removeCalendarEventByQuery`: the returned flag is
`eventFoundAndRemoved`; the returned list is the state after the
`setCalendarEvents` filter.  `netDeleteOk` tells whether the provider
delete call returned rather than threw. -/
def removeCalendarEventByQuery (signedIn : Bool)
    (events : List CalendarEvent) (q : CalendarEventQuery)
    (netDeleteOk : Bool) : List CalendarEvent × Bool :=
  if signedIn then
    match events.find? (eventMatches true q) with
    | some e =>
      if e.googleEventId.isSome then
        if netDeleteOk then (events.filter (fun x => x.id ≠ e.id), true)
        else (events, false)
      else (events, false)
    | none => (events, false)
  else
    match events.find? (eventMatches false q) with
    | some e => (events.filter (fun x => x.id ≠ e.id), true)
    | none => (events, false)

/-- The merge `{...originalEvent, ...updates, id: originalEvent.id}` of a
local update. -/
def applyUpdates (orig : CalendarEvent) (u : CalendarEventUpdates) :
    CalendarEvent :=
  { orig with
    title := u.title.getD orig.title
    date := u.date.getD orig.date
    time := u.time.orElse (fun _ => orig.time)
    description := u.description.getD orig.description }

/-- `updateCalendarEventByQuery`: `netUpdate` carries the provider's
updated event (`none` for a `null` result or a thrown error, in both of
which cases the state is unchanged).  On success, the updated event
replaces every event sharing its `id` and the list is re-sorted. -/
def updateCalendarEventByQuery (signedIn : Bool)
    (events : List CalendarEvent) (q : CalendarEventQuery)
    (u : CalendarEventUpdates) (netUpdate : Option CalendarEvent)
    (tz : Int) : List CalendarEvent × Bool :=
  if signedIn then
    match events.find? (eventMatches true q) with
    | some e =>
      if e.googleEventId.isSome then
        match netUpdate with
        | some g =>
          (jsSortCal tz (events.map (fun x => if x.id = g.id then g else x)),
           true)
        | none => (events, false)
      else (events, false)
    | none => (events, false)
  else
    match events.find? (eventMatches false q) with
    | some orig =>
      let upd := applyUpdates orig u
      (jsSortCal tz (events.map (fun x => if x.id = upd.id then upd else x)),
       true)
    | none => (events, false)

/-- `addCalendarEventInternal`: reject events without a truthy title or
date; when signed in, `googleResult` carries the event created by the
provider (`none` for `null` or a thrown error); otherwise a local event is
built.  A new event is appended and the list re-sorted. -/
def addCalendarEventInternal (signedIn : Bool)
    (events : List CalendarEvent) (d : CalendarEventData)
    (googleResult : Option CalendarEvent) (localId : String) (tz : Int) :
    List CalendarEvent × Bool :=
  if d.title = "" || d.date = "" then (events, false)
  else if signedIn then
    match googleResult with
    | some g => (jsSortCal tz (events ++ [g]), true)
    | none => (events, false)
  else
    let newLocal : CalendarEvent :=
      { id := localId
        title := d.title
        date := d.date
        time := d.time
        description := jsOrDef d.description ""
        isGoogleEvent := some false
        googleEventId := none }
    (jsSortCal tz (events ++ [newLocal]), true)

end AIAssistant

namespace AIAssistant

/-! ## Local persistence (`services/storageService.ts`)

`localStorage` is modelled at the level of the typed documents the service
serialises: `JSON.stringify`/`JSON.parse` round-trip on the well-formed
documents this service writes, so the store keeps the meta list and the
per-instance data directly.  The meta key `assistant_instances_meta` and
the per-instance keys `assistant_instance_<id>` can never collide, so they
are separate fields. -/

structure MemoryStore where
  information : String
  permanentRequests : String
  temporaryRequests : String
  pin : Option String
deriving DecidableEq

structure UploadedDocument where
  id : String
  name : String
  textContent : String
deriving DecidableEq

structure AssistantInstanceMeta where
  id : String
  name : String
  createdAt : Int
deriving DecidableEq

structure InstanceData where
  settings : AssistantSettings
  chatMessages : List ChatMessage
  documents : List UploadedDocument
  calendarEvents : List CalendarEvent
  memoryStore : MemoryStore
deriving DecidableEq

/-- The `localStorage` contents used by the storage service. -/
structure LocalStorage where
  metaRaw : Option (List AssistantInstanceMeta)
  instances : List (String × InstanceData)
deriving DecidableEq

/-- `loadMeta`: the parsed meta list, `[]` when absent. -/
def loadMeta (st : LocalStorage) : List AssistantInstanceMeta :=
  st.metaRaw.getD []

/-- The default personality template of `getDefaultSettings`, with
`${instanceName}` interpolated. -/
def defaultPersonality (name : String) : String :=
  String.intercalate "\n"
    [ "You are " ++ name ++ ", a helpful and concise personal assistant. Format your responses clearly."
    , ""
    , "If you use information from Google Search, always cite the source URLs provided in the grounding metadata."
    , ""
    , "USER-PROVIDED MEMORY:"
    , "The user may provide information and requests in three categories: \"Information\", \"Permanent Requests\", and \"Temporary Requests\"."
    , "- \"Information\" contains facts the user wants you to know (e.g., preferences, contact details, PIN for this instance)."
    , "- \"Permanent Requests\" are standing instructions that should generally always apply (e.g., \"Always summarize emails\")."
    , "- \"Temporary Requests\" are for the current session or short-term tasks (e.g., \"For the next hour, focus on topic X\")."
    , "You should not try to directly edit these memory blocks. Acknowledge their content and act accordingly."
    , ""
    , "Current date for all operations: \x7b\x7bCURRENT_DATE\x7d\x7d"
    , "Google Calendar Integration Status: \x7b\x7bGOOGLE_CALENDAR_STATUS\x7d\x7d"
    , "Memory - Information: \x7b\x7bMEMORY_INFORMATION_STATUS\x7d\x7d"
    , "Memory - Permanent Requests: \x7b\x7bMEMORY_PERMANENT_REQUESTS_STATUS\x7d\x7d"
    , "Memory - Temporary Requests: \x7b\x7bMEMORY_TEMPORARY_REQUESTS_STATUS\x7d\x7d"
    , ""
    , "CALENDAR ACTIONS:"
    , "When asked to add, delete, or update a calendar event:"
    , "- If Google Calendar is connected, state that you will attempt the action on their Google Calendar."
    , "- If not connected, state that you will perform the action on the local in-app calendar."
    , "- If your response format is set to 'application/json', you MUST include a JSON object in your response."
    , "The JSON object should be the primary content of your response, formatted exactly as described below."
    , "Follow the JSON object with a brief, natural language confirmation of the action taken."
    , "Use the 'Current date' from context to resolve relative dates into 'YYYY-MM-DD' format for the JSON."
    , ""
    , "Example for adding an event (JSON mode, Google Calendar connected):"
    , "\\`\\`\\`json"
    , "\x7b"
    , "  \"action\": \"add_event\","
    , "  \"event\": \x7b"
    , "    \"title\": \"Team Meeting\","
    , "    \"date\": \"2024-07-28\","
    , "    \"time\": \"14:00\","
    , "    \"description\": \"Discuss Q3 roadmap\""
    , "  \x7d"
    , "\x7d"
    , "\\`\\`\\`"
    , "Okay, I've attempted to add \"Team Meeting\" to your Google Calendar for July 28, 2024 at 2:00 PM."
    , ""
    , "Available actions and their JSON formats:"
    , "1. ADD EVENT: \x7b \"action\": \"add_event\", \"event\": \x7b \"title\": \"...\", \"date\": \"YYYY-MM-DD\", ... \x7d \x7d"
    , "2. DELETE EVENT: \x7b \"action\": \"delete_event\", \"event_query\": \x7b \"title\": \"...\", \"date\": \"YYYY-MM-DD\" (optional) \x7d \x7d"
    , "3. UPDATE EVENT: \x7b \"action\": \"update_event\", \"event_query\": \x7b ... \x7d, \"updates\": \x7b ... \x7d \x7d"
    , ""
    , "If not in JSON mode, inform user and answer generally. If missing info, ask for clarification."
    , "The PIN for this assistant instance, " ++ name ++ ", is stored in the 'Information' memory block. Do not reveal it unless explicitly asked in a secure context by the primary user."
    ] ++ "\n"

/-- `getDefaultSettings`. -/
def getDefaultSettings (instanceName : String) : AssistantSettings :=
  { instanceName := some instanceName
    personality := defaultPersonality instanceName
    responseMimeType := .textPlain
    temperature := some ((4 : Rat) / 5)
    topK := none
    topP := none
    seed := none
    enableGoogleSearch := true
    disableThinking := false
    googleClientId := none
    googleApiKey := none }

/-- `getDefaultMemoryStore`. -/
def getDefaultMemoryStore (pin instanceName : String) : MemoryStore :=
  { information := "PIN: " ++ pin ++ "\nThis assistant's name is "
      ++ instanceName ++ "."
    permanentRequests := ""
    temporaryRequests := ""
    pin := some pin }

/-- The default data stored for a fresh instance by `createNewInstance`. -/
def defaultInstanceData (name pin : String) : InstanceData :=
  { settings := getDefaultSettings name
    chatMessages := []
    documents := []
    calendarEvents := []
    memoryStore := getDefaultMemoryStore pin name }

/-- `localStorage.setItem(instanceKey(id), ...)` over the typed store. -/
def setInstanceItem (st : LocalStorage) (id : String) (d : InstanceData) :
    LocalStorage :=
  { st with
    instances := (id, d) :: st.instances.filter (fun p => p.1 ≠ id) }

/-- `createNewInstance`: the generated random id and `Date.now()` are
explicit inputs.  The new meta entry is `unshift`ed onto the stored meta
list, and the default instance data is stored under the instance key. -/
def createNewInstance (st : LocalStorage) (name pin newId : String)
    (now : Int) : LocalStorage × AssistantInstanceMeta :=
  let newMeta : AssistantInstanceMeta :=
    { id := newId, name := name, createdAt := now }
  let st1 : LocalStorage :=
    { st with metaRaw := some (newMeta :: loadMeta st) }
  (setInstanceItem st1 newId (defaultInstanceData name pin), newMeta)

/-- The regex replace `information.replace(/^PIN: \d\x7b4\x7d\n?/, '')`:
drop a leading `PIN: ` followed by exactly four digits and an optional
newline. -/
def stripPinPrefix (s : String) : String :=
  match s.data with
  | 'P' :: 'I' :: 'N' :: ':' :: ' ' :: d1 :: d2 :: d3 :: d4 :: rest =>
    if d1.isDigit && d2.isDigit && d3.isDigit && d4.isDigit then
      match rest with
      | '\n' :: r2 => String.mk r2
      | _ => String.mk rest
    else s
  | _ => s

/-- The PIN-repair step of `getInstanceData`: when the stored memory has a
truthy `pin` whose `PIN: <pin>` text is missing from `information`, the
text is re-inserted in front.  (The stored `information` is always a
string in the typed store, so the `typeof information !== 'string'` branch
of the source is unreachable here.) -/
def fixupInstanceData (data : InstanceData) : InstanceData :=
  match data.memoryStore.pin with
  | some p =>
    if p ≠ "" then
      let expected := "PIN: " ++ p
      if !jsIncludes data.memoryStore.information expected then
        let baseInfo :=
          if data.memoryStore.information ≠ "" then
            stripPinPrefix data.memoryStore.information
          else
            "This assistant's name is "
              ++ jsOrDef data.settings.instanceName "this assistant" ++ "."
        { data with
          memoryStore :=
            { data.memoryStore with
              information := expected ++ "\n" ++ baseInfo } }
      else data
    else data
  | none => data

/-- `getInstanceData`. -/
def getInstanceData (st : LocalStorage) (instanceId : String) :
    Option InstanceData :=
  match st.instances.find? (fun p => p.1 = instanceId) with
  | some p => some (fixupInstanceData p.2)
  | none => none

end AIAssistant

namespace AIAssistant

/-! ## The App's settings-update callback (`App.tsx`) -/

/-- `Partial<AssistantSettings>`: `none` = key absent.  The optional-typed
fields use a second `Option` level so that a present-but-`undefined` key
(which the settings form produces for cleared numeric inputs) is
representable. -/
structure SettingsPatch where
  instanceName : Option (Option String)
  personality : Option String
  responseMimeType : Option MimeType
  temperature : Option (Option Rat)
  topK : Option (Option Rat)
  topP : Option (Option Rat)
  seed : Option (Option Rat)
  enableGoogleSearch : Option Bool
  disableThinking : Option Bool
  googleClientId : Option (Option String)
  googleApiKey : Option (Option String)
deriving DecidableEq

/-- The spread `{...prevSettings, ...newSettingsPartial}`. -/
def applySettingsPatch (prev : AssistantSettings) (p : SettingsPatch) :
    AssistantSettings :=
  { instanceName := p.instanceName.getD prev.instanceName
    personality := p.personality.getD prev.personality
    responseMimeType := p.responseMimeType.getD prev.responseMimeType
    temperature := p.temperature.getD prev.temperature
    topK := p.topK.getD prev.topK
    topP := p.topP.getD prev.topP
    seed := p.seed.getD prev.seed
    enableGoogleSearch := p.enableGoogleSearch.getD prev.enableGoogleSearch
    disableThinking := p.disableThinking.getD prev.disableThinking
    googleClientId := p.googleClientId.getD prev.googleClientId
    googleApiKey := p.googleApiKey.getD prev.googleApiKey }

/-- The forcing step of `updateSettingsCallback`: when Google Search is
enabled together with `application/json`, switch to `text/plain`. -/
def forceSearchMime (u : AssistantSettings) : AssistantSettings :=
  if u.enableGoogleSearch && u.responseMimeType = .applicationJson then
    { u with responseMimeType := .textPlain }
  else u

/-- `updateSettingsCallback`: merge the partial update (pinning
`instanceName` to its previous value), then force `responseMimeType` to
`text/plain` when Google Search is enabled together with
`application/json`. -/
def updateSettingsCallback (prev : AssistantSettings) (p : SettingsPatch) :
    AssistantSettings :=
  forceSearchMime
    { applySettingsPatch prev p with instanceName := prev.instanceName }

end AIAssistant

namespace AIAssistant

/-! ## PDF text extraction (`pdfUtils.ts`) -/

/-- A loaded PDF document: its page count and, for each 1-based page
number, the `str` fields of the page's text items. -/
structure PdfDocument where
  numPages : Nat
  pages : Nat → List String

/-- The page loop of `extractTextFromPDF`: starting at page `i` with
`remaining` pages to go, append each page's items joined by single spaces
plus a newline. -/
def extractPages (doc : PdfDocument) : Nat → Nat → String → String
  | _, 0, acc => acc
  | i, r + 1, acc =>
    extractPages doc (i + 1) r
      (acc ++ String.intercalate " " (doc.pages i) ++ "\n")

/-- `extractTextFromPDF`: iterate pages 1 through `numPages`. -/
def extractTextFromPDF (doc : PdfDocument) : String :=
  extractPages doc 1 doc.numPages ""

end AIAssistant

namespace AIAssistant

/-! ## Helper lemmas -/

theorem strData_append (a b : String) : (a ++ b).data = a.data ++ b.data :=
  rfl

theorem listStartsWith_append_self (p r : List Char) :
    listStartsWith p (p ++ r) = true := by
  induction p with
  | nil => rfl
  | cons a as ih => simp [listStartsWith, ih]

theorem listHasSub_append_self (p r : List Char) :
    listHasSub p (p ++ r) = true := by
  cases p with
  | nil => cases r <;> simp [listHasSub, listStartsWith]
  | cons a as =>
    simp only [List.cons_append, listHasSub]
    have h : listStartsWith (a :: as) (a :: (as ++ r)) = true := by
      simpa using listStartsWith_append_self (a :: as) r
    simpa using Or.inl h

theorem jsIncludes_append_self (p r : String) :
    jsIncludes (p ++ r) p = true := by
  simp [jsIncludes, strData_append, listHasSub_append_self]

end AIAssistant

namespace AIAssistant

theorem strAppend_assoc (a b c : String) : (a ++ b) ++ c = a ++ (b ++ c) :=
  congrArg String.mk (List.append_assoc a.data b.data c.data)

theorem strAppend_empty (s : String) : s ++ "" = s := by
  cases s with
  | mk l => exact congrArg String.mk (List.append_nil l)

theorem strEmpty_append (s : String) : "" ++ s = s := by
  cases s with
  | mk l => rfl

theorem includes_pin_default (name pin : String) :
    jsIncludes ("PIN: " ++ pin ++ "\nThis assistant's name is "
      ++ name ++ ".") ("PIN: " ++ pin) = true := by
  have h : ("PIN: " ++ pin ++ "\nThis assistant's name is "
      ++ name ++ "." : String)
      = ("PIN: " ++ pin)
        ++ ("\nThis assistant's name is " ++ (name ++ ".")) := by
    rw [strAppend_assoc, strAppend_assoc]
  rw [h]
  exact jsIncludes_append_self _ _

theorem fixup_default (name pin : String) :
    fixupInstanceData (defaultInstanceData name pin)
      = defaultInstanceData name pin := by
  unfold fixupInstanceData
  simp only [defaultInstanceData, getDefaultMemoryStore]
  by_cases hp : pin = ""
  · simp [hp]
  · simp [hp, includes_pin_default name pin]

end AIAssistant

namespace AIAssistant

/-- C7: for every name and pin, after `createNewInstance(name, pin)`
returns a fresh id, `getInstanceData` on that id returns the default
instance data for that name — the default settings, empty chat messages,
documents and calendar events, and a memory store whose `pin` field equals
the pin and whose `information` text contains `PIN: <pin>` — and the new
instance's meta entry is placed at the front of the stored meta list. -/
theorem C7_createNewInstance_roundtrip (st : LocalStorage)
    (name pin newId : String) (now : Int) :
    getInstanceData (createNewInstance st name pin newId now).1 newId
        = some (defaultInstanceData name pin)
      ∧ (defaultInstanceData name pin).settings = getDefaultSettings name
      ∧ (defaultInstanceData name pin).chatMessages = []
      ∧ (defaultInstanceData name pin).documents = []
      ∧ (defaultInstanceData name pin).calendarEvents = []
      ∧ (defaultInstanceData name pin).memoryStore.pin = some pin
      ∧ jsIncludes (defaultInstanceData name pin).memoryStore.information
          ("PIN: " ++ pin) = true
      ∧ (createNewInstance st name pin newId now).1.metaRaw
          = some ((createNewInstance st name pin newId now).2 :: loadMeta st)
      ∧ (createNewInstance st name pin newId now).2
          = { id := newId, name := name, createdAt := now } := by
  refine ⟨?_, rfl, rfl, rfl, rfl, rfl, ?_, rfl, rfl⟩
  · simp [createNewInstance, setInstanceItem, getInstanceData,
      List.find?, fixup_default]
  · have h : (defaultInstanceData name pin).memoryStore.information
        = ("PIN: " ++ pin)
          ++ ("\nThis assistant's name is " ++ (name ++ ".")) := by
      simp [defaultInstanceData, getDefaultMemoryStore, strAppend_assoc]
    rw [h]
    exact jsIncludes_append_self _ _

end AIAssistant

namespace AIAssistant

theorem strFoldl_append_init (l : List String) (a : String) :
    l.foldl (fun r s => r ++ s) a = a ++ l.foldl (fun r s => r ++ s) "" := by
  induction l generalizing a with
  | nil => simp [strAppend_empty]
  | cons x xs ih =>
    simp only [List.foldl_cons]
    rw [ih (a ++ x), ih ("" ++ x), strEmpty_append, strAppend_assoc]

theorem strJoin_cons (s : String) (l : List String) :
    String.join (s :: l) = s ++ String.join l := by
  simp only [String.join, List.foldl_cons]
  rw [strFoldl_append_init l ("" ++ s), strEmpty_append]

theorem extractPages_spec (doc : PdfDocument) :
    ∀ (r i : Nat) (acc : String),
      extractPages doc i r acc
        = acc ++ String.join ((List.range r).map
            (fun k => String.intercalate " " (doc.pages (i + k)) ++ "\n")) := by
  intro r
  induction r with
  | zero => intro i acc; simp [extractPages, String.join, strAppend_empty]
  | succ n ih =>
    intro i acc
    rw [extractPages, ih (i + 1)]
    rw [List.range_succ_eq_map]
    simp only [List.map_cons, List.map_map, Nat.add_zero]
    rw [strJoin_cons]
    have hmap : List.map
        (fun k => String.intercalate " " (doc.pages (i + 1 + k)) ++ "\n")
        (List.range n)
        = List.map
          ((fun k => String.intercalate " " (doc.pages (i + k)) ++ "\n")
            ∘ Nat.succ) (List.range n) := by
      apply List.map_congr_left
      intro k _
      have h : i + 1 + k = i + Nat.succ k := by omega
      simp [Function.comp, h]
    rw [hmap, strAppend_assoc, strAppend_assoc, strAppend_assoc]

/-- C8: `extractTextFromPDF` returns the concatenation, in ascending page
order from page 1 through the document's page count, of each page's
text-item strings joined by single spaces, with one newline appended after
each page. -/
theorem C8_extractTextFromPDF_spec (doc : PdfDocument) :
    extractTextFromPDF doc
      = String.join ((List.range doc.numPages).map
          (fun k => String.intercalate " " (doc.pages (k + 1)) ++ "\n")) := by
  rw [extractTextFromPDF, extractPages_spec doc doc.numPages 1 "",
    strEmpty_append]
  apply congrArg
  apply List.map_congr_left
  intro k _
  have h : 1 + k = k + 1 := by omega
  rw [h]

end AIAssistant

namespace AIAssistant

theorem emod_eq_mod (a b : Int) : a.emod b = a % b := rfl

theorem jsSetHours_succ (e tz : Int) :
    jsSetHours e tz (jsGetHours e tz + 1) = e + 3600 := by
  simp only [jsSetHours, jsGetHours, emod_eq_mod]
  omega

theorem forceJsonOverride (u : AssistantSettings)
    (h : (forceSearchMime u).enableGoogleSearch = true) :
    (forceSearchMime u).responseMimeType = MimeType.textPlain := by
  unfold forceSearchMime at h ⊢
  split
  · rfl
  · next hc =>
    rw [if_neg hc] at h
    cases hmt : u.responseMimeType with
    | textPlain => rfl
    | applicationJson => simp [h, hmt] at hc

/-- C9: whenever `enableGoogleSearch` is true in a settings object, the
effective `responseMimeType` used for the chat session is forced to
`text/plain` — no chat session is created with both Google Search and
JSON mode — and saving settings through the App's update callback
re-establishes this invariant on the stored settings. -/
theorem C9_search_forces_text_plain (s prev : AssistantSettings)
    (p : SettingsPatch) :
    (s.enableGoogleSearch = true →
      (chatCreationConfig s).responseMimeType = MimeType.textPlain
        ∧ (resolveSettings s).responseMimeType = MimeType.textPlain)
    ∧ ((updateSettingsCallback prev p).enableGoogleSearch = true →
        (updateSettingsCallback prev p).responseMimeType
          = MimeType.textPlain) := by
  refine ⟨fun h => ⟨?_, ?_⟩, fun h => ?_⟩
  · simp only [chatCreationConfig, resolveMime, h, Bool.true_and]
    cases s.responseMimeType <;> simp
  · simp only [resolveSettings, resolveMime, h, Bool.true_and]
    cases s.responseMimeType <;> simp
  · simp only [updateSettingsCallback] at h ⊢
    exact forceJsonOverride _ h

/-- Witness for C9 at concrete inputs: settings with Google Search on and
JSON mode requested, and a patch switching the stored settings to JSON
mode while search stays on. -/
theorem C9_witness :
    (chatCreationConfig
        { instanceName := none, personality := "p"
          responseMimeType := .applicationJson
          temperature := none, topK := none, topP := none, seed := none
          enableGoogleSearch := true, disableThinking := false
          googleClientId := none, googleApiKey := none }).responseMimeType
      = MimeType.textPlain
    ∧ (updateSettingsCallback
        { instanceName := none, personality := "p"
          responseMimeType := .textPlain
          temperature := none, topK := none, topP := none, seed := none
          enableGoogleSearch := true, disableThinking := false
          googleClientId := none, googleApiKey := none }
        { instanceName := none, personality := none
          responseMimeType := some .applicationJson
          temperature := none, topK := none, topP := none, seed := none
          enableGoogleSearch := none, disableThinking := none
          googleClientId := none, googleApiKey := none }).responseMimeType
      = MimeType.textPlain :=
  ⟨(C9_search_forces_text_plain
      { instanceName := none, personality := "p"
        responseMimeType := .applicationJson
        temperature := none, topK := none, topP := none, seed := none
        enableGoogleSearch := true, disableThinking := false
        googleClientId := none, googleApiKey := none }
      { instanceName := none, personality := "p"
        responseMimeType := .textPlain
        temperature := none, topK := none, topP := none, seed := none
        enableGoogleSearch := true, disableThinking := false
        googleClientId := none, googleApiKey := none }
      { instanceName := none, personality := none
        responseMimeType := some .applicationJson
        temperature := none, topK := none, topP := none, seed := none
        enableGoogleSearch := none, disableThinking := none
        googleClientId := none, googleApiKey := none }).1 rfl |>.1,
   (C9_search_forces_text_plain
      { instanceName := none, personality := "p"
        responseMimeType := .applicationJson
        temperature := none, topK := none, topP := none, seed := none
        enableGoogleSearch := true, disableThinking := false
        googleClientId := none, googleApiKey := none }
      { instanceName := none, personality := "p"
        responseMimeType := .textPlain
        temperature := none, topK := none, topP := none, seed := none
        enableGoogleSearch := true, disableThinking := false
        googleClientId := none, googleApiKey := none }
      { instanceName := none, personality := none
        responseMimeType := some .applicationJson
        temperature := none, topK := none, topP := none, seed := none
        enableGoogleSearch := none, disableThinking := none
        googleClientId := none, googleApiKey := none }).2 (by decide)⟩

end AIAssistant

namespace AIAssistant

/-- C2 (amended): `getAccessToken` returns the stored token exactly when a
(truthy) token is present and its stored expiry is (truthy and) strictly
greater than the current time.  In every other case `null` is returned;
the PKCE variant then always clears the in-memory and persisted token
state, while the GSI variant clears it only when an in-memory token was
present, leaving the persisted entries untouched otherwise. -/
theorem C2_getAccessToken_amended (stA : AuthStateA) (stB : AuthStateB)
    (now : Int) :
    (tokenValidA stA now = true ↔
      ((∃ t, stA.accessToken = some t ∧ t ≠ "")
        ∧ (∃ x, stA.tokenExpiryTime = some x ∧ x ≠ 0 ∧ x > now)))
    ∧ (tokenValidA stA now = true →
        getAccessTokenA stA now = (stA.accessToken, stA))
    ∧ (tokenValidA stA now = false →
        getAccessTokenA stA now
          = (none, { accessToken := none, tokenExpiryTime := none
                     refreshToken := none, lsAccessToken := none
                     lsTokenExpiry := none, lsRefreshToken := none
                     lsCodeVerifier := none }))
    ∧ (tokenValidB stB now = true →
        getAccessTokenB stB now = (stB.accessToken, stB))
    ∧ (tokenValidB stB now = false → stB.accessToken.isSome = true →
        getAccessTokenB stB now
          = (none, { accessToken := none, tokenExpiryTime := none
                     lsAccessToken := none, lsTokenExpiry := none }))
    ∧ (tokenValidB stB now = false → stB.accessToken = none →
        getAccessTokenB stB now = (none, stB)) := by
  refine ⟨?_, fun h => ?_, fun h => ?_, fun h => ?_, fun h h2 => ?_,
    fun h h2 => ?_⟩
  · unfold tokenValidA strTruthy
    cases stA.accessToken <;> cases stA.tokenExpiryTime <;> simp
  · simp [getAccessTokenA, h]
  · simp [getAccessTokenA, h, clearTokensA]
  · simp [getAccessTokenB, h]
  · rw [getAccessTokenB, if_neg (by simp [h]), if_pos h2]
  · rw [getAccessTokenB, if_neg (by simp [h]), if_neg (by simp [h2])]

/-- Witness for C2 at concrete inputs: a valid token is returned in both
variants, an expired PKCE token clears the full state, an expired GSI
token with an in-memory token clears, and a GSI state with no in-memory
token is returned unchanged. -/
theorem C2_witness :
    getAccessTokenA
        { accessToken := some "tokA", tokenExpiryTime := some 100
          refreshToken := none, lsAccessToken := some "tokA"
          lsTokenExpiry := some "100", lsRefreshToken := none
          lsCodeVerifier := none } 50
      = (some "tokA",
         { accessToken := some "tokA", tokenExpiryTime := some 100
           refreshToken := none, lsAccessToken := some "tokA"
           lsTokenExpiry := some "100", lsRefreshToken := none
           lsCodeVerifier := none })
    ∧ getAccessTokenA
        { accessToken := some "tokA", tokenExpiryTime := some 100
          refreshToken := none, lsAccessToken := some "tokA"
          lsTokenExpiry := some "100", lsRefreshToken := none
          lsCodeVerifier := none } 200
      = (none, { accessToken := none, tokenExpiryTime := none
                 refreshToken := none, lsAccessToken := none
                 lsTokenExpiry := none, lsRefreshToken := none
                 lsCodeVerifier := none })
    ∧ getAccessTokenB
        { accessToken := some "tokB", tokenExpiryTime := some 100
          lsAccessToken := some "tokB", lsTokenExpiry := some "100" } 200
      = (none, { accessToken := none, tokenExpiryTime := none
                 lsAccessToken := none, lsTokenExpiry := none })
    ∧ getAccessTokenB
        { accessToken := none, tokenExpiryTime := none
          lsAccessToken := some "stale", lsTokenExpiry := some "9" } 50
      = (none, { accessToken := none, tokenExpiryTime := none
                 lsAccessToken := some "stale", lsTokenExpiry := some "9" }) :=
  ⟨(C2_getAccessToken_amended
      { accessToken := some "tokA", tokenExpiryTime := some 100
        refreshToken := none, lsAccessToken := some "tokA"
        lsTokenExpiry := some "100", lsRefreshToken := none
        lsCodeVerifier := none }
      { accessToken := none, tokenExpiryTime := none
        lsAccessToken := none, lsTokenExpiry := none } 50).2.1 (by decide),
   (C2_getAccessToken_amended
      { accessToken := some "tokA", tokenExpiryTime := some 100
        refreshToken := none, lsAccessToken := some "tokA"
        lsTokenExpiry := some "100", lsRefreshToken := none
        lsCodeVerifier := none }
      { accessToken := none, tokenExpiryTime := none
        lsAccessToken := none, lsTokenExpiry := none } 200).2.2.1 (by decide),
   (C2_getAccessToken_amended
      { accessToken := none, tokenExpiryTime := none, refreshToken := none
        lsAccessToken := none, lsTokenExpiry := none, lsRefreshToken := none
        lsCodeVerifier := none }
      { accessToken := some "tokB", tokenExpiryTime := some 100
        lsAccessToken := some "tokB", lsTokenExpiry := some "100" }
      200).2.2.2.2.1 (by decide) (by decide),
   (C2_getAccessToken_amended
      { accessToken := none, tokenExpiryTime := none, refreshToken := none
        lsAccessToken := none, lsTokenExpiry := none, lsRefreshToken := none
        lsCodeVerifier := none }
      { accessToken := none, tokenExpiryTime := none
        lsAccessToken := some "stale", lsTokenExpiry := some "9" }
      50).2.2.2.2.2 (by decide) rfl⟩

/-- C2 counterexample: in the GSI variant, a call with no in-memory token
returns `null` but leaves the persisted `localStorage` token in place,
contradicting the claim that the persisted token state is cleared in every
non-valid case. -/
theorem C2_counterexample :
    getAccessTokenB
        { accessToken := none, tokenExpiryTime := none
          lsAccessToken := some "tok", lsTokenExpiry := some "999999" } 5
      = (none,
         { accessToken := none, tokenExpiryTime := none
           lsAccessToken := some "tok", lsTokenExpiry := some "999999" })
    ∧ (getAccessTokenB
        { accessToken := none, tokenExpiryTime := none
          lsAccessToken := some "tok", lsTokenExpiry := some "999999" }
        5).2.lsAccessToken ≠ none := by
  refine ⟨by decide, by decide⟩

end AIAssistant

namespace AIAssistant

/-- C3 (amended): in the fetch-based `GoogleCalendarService` a failed
network request is caught and logged and the operation returns its default
(`[]` for `listEvents`, `null` for `createEvent`/`updateEvent`, `false`
for `deleteEvent`); in the gapi-based variant the error is logged and
re-thrown to the caller instead. -/
theorem C3_crud_error_handling_amended (e : String)
    (d : CalendarEventData) (u : CalendarEventUpdates) (tz : Int)
    (g : GItem) (b b2 : GoogleEventBody)
    (hb : createEventBody d tz = some b)
    (hbu : buildUpdateResource g u tz = some b2) :
    fetchListEvents true (Except.error e) = []
    ∧ fetchCreateEvent true d tz (Except.error e) = Except.ok none
    ∧ fetchDeleteEvent true (Except.error e) = false
    ∧ fetchUpdateEvent true u tz (Except.error e) (Except.ok g)
        = Except.ok none
    ∧ fetchUpdateEvent true u tz (Except.ok g) (Except.error e)
        = Except.ok none
    ∧ gapiListEvents true (Except.error e) = Except.error e
    ∧ gapiCreateEvent true d tz (Except.error e) = Except.error e
    ∧ gapiDeleteEvent true (Except.error e) = Except.error e
    ∧ gapiUpdateEvent true u tz (Except.error e) (Except.ok g)
        = Except.error e
    ∧ gapiUpdateEvent true u tz (Except.ok g) (Except.error e)
        = Except.error e := by
  refine ⟨rfl, ?_, rfl, rfl, ?_, rfl, ?_, rfl, rfl, ?_⟩
  · simp [fetchCreateEvent, hb]
  · simp [fetchUpdateEvent, hbu]
  · simp [gapiCreateEvent, hb]
  · simp [gapiUpdateEvent, hbu]

/-- Witness for C3 at a concrete failing request. -/
theorem C3_witness :
    fetchDeleteEvent true (Except.error "network failure") = false
    ∧ fetchCreateEvent true
        { title := "T", date := "2024-06-15", time := none
          description := none } 0 (Except.error "network failure")
        = Except.ok none
    ∧ gapiDeleteEvent true (Except.error "network failure")
        = Except.error "network failure" :=
  ⟨(C3_crud_error_handling_amended "network failure"
      { title := "T", date := "2024-06-15", time := none
        description := none }
      { title := none, date := none, time := none, description := none } 0
      { id := none, summary := none, description := none
        startTime := none, endTime := none } _ _ rfl rfl).2.2.1,
   (C3_crud_error_handling_amended "network failure"
      { title := "T", date := "2024-06-15", time := none
        description := none }
      { title := none, date := none, time := none, description := none } 0
      { id := none, summary := none, description := none
        startTime := none, endTime := none } _ _ rfl rfl).2.1,
   (C3_crud_error_handling_amended "network failure"
      { title := "T", date := "2024-06-15", time := none
        description := none }
      { title := none, date := none, time := none, description := none } 0
      { id := none, summary := none, description := none
        startTime := none, endTime := none } _ _ rfl rfl).2.2.2.2.2.2.2.1⟩

/-- C3 counterexample: the gapi-variant `deleteEvent` re-throws a network
failure instead of returning `false`, contradicting the claim that every
calendar CRUD operation catches the error and returns `null`/`false`/`[]`
to its caller. -/
theorem C3_counterexample :
    gapiDeleteEvent true (Except.error "network failure")
      = Except.error "network failure"
    ∧ gapiDeleteEvent true (Except.error "network failure")
      ≠ Except.ok false := by
  refine ⟨rfl, fun h => Except.noConfusion h⟩

end AIAssistant

namespace AIAssistant

/-- C6 (amended): `createEvent` sends an all-day provider event with
`start.date` and `end.date` equal to the input date when no (truthy) time
is given.  When a time is given it sends a timed event whose
`start.dateTime` is `<date>T<time>:00` and whose `end.dateTime` is the UTC
rendering, without an offset designator, of the instant one hour after the
start as parsed in the runtime's local timezone — which denotes one hour
after the start only when that local offset is zero. -/
theorem C6_createEvent_shape_amended (d : CalendarEventData) (tz e1 : Int) :
    (d.time = none →
      createEventBody d tz = some
        { summary := some d.title, description := d.description
          startDate := some d.date, endDate := some d.date
          startDateTime := none, endDateTime := none })
    ∧ (∀ t : String, d.time = some t → t ≠ "" →
        jsDateParse (d.date ++ "T" ++ t ++ ":00") tz = some e1 →
        createEventBody d tz = some
          { summary := some d.title, description := d.description
            startDate := none, endDate := none
            startDateTime := some (d.date ++ "T" ++ t ++ ":00")
            endDateTime := some (isoOfEpoch (e1 + 3600)) }) := by
  constructor
  · intro h
    simp [createEventBody, h, strTruthy]
  · intro t ht hne hp
    rw [createEventBody]
    rw [ht]
    simp only [strTruthy, ne_eq, hne, not_false_eq_true, Option.getD_some,
      hp, jsSetHours_succ]
    rfl

/-- Witness for C6 at concrete inputs: an all-day event and a timed event
at local offset zero (where the end is exactly one hour after the
start). -/
theorem C6_witness :
    createEventBody
        { title := "A", date := "2024-06-15", time := none
          description := none } 0
      = some { summary := some "A", description := none
               startDate := some "2024-06-15", endDate := some "2024-06-15"
               startDateTime := none, endDateTime := none }
    ∧ createEventBody
        { title := "B", date := "2024-06-15", time := some "14:00"
          description := none } 0
      = some { summary := some "B", description := none
               startDate := none, endDate := none
               startDateTime := some "2024-06-15T14:00:00"
               endDateTime := some (isoOfEpoch (1718460000 + 3600)) } :=
  ⟨(C6_createEvent_shape_amended
      { title := "A", date := "2024-06-15", time := none
        description := none } 0 0).1 rfl,
   (C6_createEvent_shape_amended
      { title := "B", date := "2024-06-15", time := some "14:00"
        description := none } 0 1718460000).2 "14:00" rfl
     (by decide) (by decide)⟩

/-- C6 counterexample: at local offset +120 minutes (UTC+2) the request
for a 14:00 event carries `end.dateTime` `2024-06-15T13:00:00` — an hour
BEFORE the start when both strings are read in one common timezone —
contradicting the claim that the end denotes an instant exactly one hour
after the start. -/
theorem C6_counterexample :
    (createEventBody
        { title := "Mtg", date := "2024-06-15", time := some "14:00"
          description := none } 120).map
        (fun b => (b.startDateTime, b.endDateTime))
      = some (some "2024-06-15T14:00:00", some "2024-06-15T13:00:00")
    ∧ jsDateParse "2024-06-15T14:00:00" 0 = some 1718460000
    ∧ jsDateParse "2024-06-15T13:00:00" 0 = some (1718460000 - 3600) := by
  refine ⟨by decide, by decide, by decide⟩

end AIAssistant

namespace AIAssistant

/-- C10 (evaluating the code at the failing input): adding the timed event
`Gym` on 2024-06-15 09:00 to a list holding an all-day event on
2024-06-16 leaves the timed event at the END of the stored list, although
its instant (1718442000) precedes the all-day event's (1718496000) —
because the sort key concatenates date and time with no separator
(`2024-06-1509:00`), which is an Invalid Date (`NaN`). -/
theorem C10_sort_key_bug_eval :
    addCalendarEventInternal false
        [{ id := "1", title := "Later", date := "2024-06-16", time := none
           description := "", isGoogleEvent := some false
           googleEventId := none }]
        { title := "Gym", date := "2024-06-15", time := some "09:00"
          description := none } none "2" 0
      = ([{ id := "1", title := "Later", date := "2024-06-16", time := none
            description := "", isGoogleEvent := some false
            googleEventId := none },
          { id := "2", title := "Gym", date := "2024-06-15"
            time := some "09:00", description := ""
            isGoogleEvent := some false, googleEventId := none }], true)
    ∧ jsDateKey 0
        { id := "2", title := "Gym", date := "2024-06-15"
          time := some "09:00", description := ""
          isGoogleEvent := some false, googleEventId := none } = none
    ∧ jsDateParse "2024-06-15T09:00" 0 = some 1718442000
    ∧ jsDateParse "2024-06-16" 0 = some 1718496000 := by
  refine ⟨by decide, by decide, by decide, by decide⟩

end AIAssistant

namespace AIAssistant

/-- C1 (amended): for delete and update queries both operations select the
FIRST event of the current list matching case-insensitive title equality,
optional (truthy) date equality, and the Google/local restriction given
the sign-in state; when no event matches, the list is unchanged and
`false` is returned.  When signed in, the operation additionally proceeds
only if the selected event carries a `googleEventId` and the provider call
succeeds; otherwise the list is unchanged and `false` is returned. -/
theorem C1_query_match_amended (signedIn : Bool)
    (events : List CalendarEvent) (q : CalendarEventQuery)
    (netDeleteOk : Bool) (netUpdate : Option CalendarEvent)
    (u : CalendarEventUpdates) (tz : Int) :
    ((∀ ev ∈ events, eventMatches signedIn q ev = false) →
      removeCalendarEventByQuery signedIn events q netDeleteOk
          = (events, false)
        ∧ updateCalendarEventByQuery signedIn events q u netUpdate tz
          = (events, false))
    ∧ (∀ ev, events.find? (eventMatches signedIn q) = some ev →
        ev ∈ events
        ∧ eventMatches signedIn q ev = true
        ∧ (signedIn = true → ev.googleEventId = none →
            removeCalendarEventByQuery true events q netDeleteOk
                = (events, false)
              ∧ updateCalendarEventByQuery true events q u netUpdate tz
                = (events, false))
        ∧ (signedIn = false →
            removeCalendarEventByQuery false events q netDeleteOk
                = (events.filter (fun x => x.id ≠ ev.id), true)
              ∧ updateCalendarEventByQuery false events q u netUpdate tz
                = (jsSortCal tz (events.map (fun x =>
                    if x.id = (applyUpdates ev u).id then applyUpdates ev u
                    else x)), true))
        ∧ (signedIn = true → ev.googleEventId ≠ none →
            (netDeleteOk = true →
              removeCalendarEventByQuery true events q netDeleteOk
                = (events.filter (fun x => x.id ≠ ev.id), true))
            ∧ (netDeleteOk = false →
              removeCalendarEventByQuery true events q netDeleteOk
                = (events, false))
            ∧ (∀ g, netUpdate = some g →
              updateCalendarEventByQuery true events q u netUpdate tz
                = (jsSortCal tz (events.map (fun x =>
                    if x.id = g.id then g else x)), true))
            ∧ (netUpdate = none →
              updateCalendarEventByQuery true events q u netUpdate tz
                = (events, false)))) := by
  constructor
  · intro hall
    have hfind : events.find? (eventMatches signedIn q) = none := by
      rw [List.find?_eq_none]
      intro x hx
      simp [hall x hx]
    cases signedIn <;>
      simp [removeCalendarEventByQuery, updateCalendarEventByQuery, hfind]
  · intro ev hfind
    refine ⟨List.mem_of_find?_eq_some hfind, List.find?_some hfind,
      fun hs hid => ?_, fun hs => ?_, fun hs hid => ?_⟩
    · subst hs
      constructor
      · simp [removeCalendarEventByQuery, hfind, hid]
      · simp [updateCalendarEventByQuery, hfind, hid]
    · subst hs
      constructor
      · simp [removeCalendarEventByQuery, hfind]
      · simp [updateCalendarEventByQuery, hfind]
    · subst hs
      have hid2 : ev.googleEventId.isSome = true := by
        cases hgg : ev.googleEventId with
        | none => exact absurd hgg hid
        | some _ => rfl
      refine ⟨fun hn => ?_, fun hn => ?_, fun g hg => ?_, fun hg => ?_⟩
      · simp [removeCalendarEventByQuery, hfind, hid2, hn]
      · simp [removeCalendarEventByQuery, hfind, hid2, hn]
      · simp [updateCalendarEventByQuery, hfind, hid2, hg]
      · simp [updateCalendarEventByQuery, hfind, hid2, hg]

end AIAssistant

namespace AIAssistant

/-- Witness for C1 at concrete inputs: a local event found by
case-insensitive title is removed / updated; a query matching nothing
leaves the list unchanged. -/
theorem C1_witness :
    removeCalendarEventByQuery false
        [{ id := "1", title := "Gym", date := "2024-06-15", time := none
           description := "", isGoogleEvent := some false
           googleEventId := none }]
        { title := "GYM", date := none } true
      = ([], true)
    ∧ updateCalendarEventByQuery false
        [{ id := "1", title := "Gym", date := "2024-06-15", time := none
           description := "", isGoogleEvent := some false
           googleEventId := none }]
        { title := "GYM", date := none }
        { title := some "Gym2", date := none, time := none
          description := none } none 0
      = ([{ id := "1", title := "Gym2", date := "2024-06-15", time := none
            description := "", isGoogleEvent := some false
            googleEventId := none }], true)
    ∧ removeCalendarEventByQuery false
        [{ id := "1", title := "Gym", date := "2024-06-15", time := none
           description := "", isGoogleEvent := some false
           googleEventId := none }]
        { title := "Dentist", date := none } true
      = ([{ id := "1", title := "Gym", date := "2024-06-15", time := none
            description := "", isGoogleEvent := some false
            googleEventId := none }], false) := by
  refine ⟨?_, ?_, ?_⟩
  · rw [(((C1_query_match_amended false
      [{ id := "1", title := "Gym", date := "2024-06-15", time := none
         description := "", isGoogleEvent := some false
         googleEventId := none }]
      { title := "GYM", date := none } true none
      { title := some "Gym2", date := none, time := none
        description := none } 0).2
      { id := "1", title := "Gym", date := "2024-06-15", time := none
        description := "", isGoogleEvent := some false
        googleEventId := none } (by decide)).2.2.2.1 rfl).1]
    decide
  · rw [(((C1_query_match_amended false
      [{ id := "1", title := "Gym", date := "2024-06-15", time := none
         description := "", isGoogleEvent := some false
         googleEventId := none }]
      { title := "GYM", date := none } true none
      { title := some "Gym2", date := none, time := none
        description := none } 0).2
      { id := "1", title := "Gym", date := "2024-06-15", time := none
        description := "", isGoogleEvent := some false
        googleEventId := none } (by decide)).2.2.2.1 rfl).2]
    decide
  · rw [((C1_query_match_amended false
      [{ id := "1", title := "Gym", date := "2024-06-15", time := none
         description := "", isGoogleEvent := some false
         googleEventId := none }]
      { title := "Dentist", date := none } true none
      { title := some "Gym2", date := none, time := none
        description := none } 0).1 (by decide)).1]

/-- C1 counterexample: when signed in, an event that satisfies the match
predicate (Google-sourced, case-insensitive title equality) but carries no
`googleEventId` is found yet neither removed nor updated — the operations
return `false` with the list unchanged although a matching event exists,
contradicting the claim's "exactly when".  Also, a query carrying the
empty-string date matches (and removes) an event with a different date,
because the code treats a falsy date as absent. -/
theorem C1_counterexample :
    eventMatches true { title := "meeting", date := none }
        { id := "1", title := "Meeting", date := "2024-06-15", time := none
          description := "", isGoogleEvent := some true
          googleEventId := none } = true
    ∧ removeCalendarEventByQuery true
        [{ id := "1", title := "Meeting", date := "2024-06-15", time := none
           description := "", isGoogleEvent := some true
           googleEventId := none }]
        { title := "meeting", date := none } true
      = ([{ id := "1", title := "Meeting", date := "2024-06-15"
            time := none, description := "", isGoogleEvent := some true
            googleEventId := none }], false)
    ∧ updateCalendarEventByQuery true
        [{ id := "1", title := "Meeting", date := "2024-06-15", time := none
           description := "", isGoogleEvent := some true
           googleEventId := none }]
        { title := "meeting", date := none }
        { title := some "X", date := none, time := none
          description := none }
        (some { id := "1", title := "X", date := "2024-06-15", time := none
                description := "", isGoogleEvent := some true
                googleEventId := some "1" }) 0
      = ([{ id := "1", title := "Meeting", date := "2024-06-15"
            time := none, description := "", isGoogleEvent := some true
            googleEventId := none }], false)
    ∧ removeCalendarEventByQuery false
        [{ id := "2", title := "Gym", date := "2024-06-15", time := none
           description := "", isGoogleEvent := some false
           googleEventId := none }]
        { title := "gym", date := some "" } true
      = ([], true) := by
  refine ⟨by decide, by decide, by decide, by decide⟩

end AIAssistant

namespace AIAssistant

/-- The fields compared by `settingsHaveChanged` — everything except
`instanceName`. -/
structure GenSettings where
  personality : String
  responseMimeType : MimeType
  temperature : Option Rat
  topK : Option Rat
  topP : Option Rat
  seed : Option Rat
  enableGoogleSearch : Bool
  disableThinking : Bool
  googleClientId : Option String
  googleApiKey : Option String
deriving DecidableEq

/-- Project the compared fields out of a settings object. -/
def genOf (s : AssistantSettings) : GenSettings :=
  { personality := s.personality
    responseMimeType := s.responseMimeType
    temperature := s.temperature
    topK := s.topK
    topP := s.topP
    seed := s.seed
    enableGoogleSearch := s.enableGoogleSearch
    disableThinking := s.disableThinking
    googleClientId := s.googleClientId
    googleApiKey := s.googleApiKey }

theorem settingsHaveChanged_some (cs s : AssistantSettings)
    (st : GeminiState) (hcur : st.currentSettings = some cs) :
    settingsHaveChanged st s = true
      ↔ genOf cs ≠ genOf (resolveSettings s) := by
  unfold settingsHaveChanged
  rw [hcur]
  constructor
  · intro h hall
    simp only [genOf, resolveSettings, resolveMime,
      GenSettings.mk.injEq] at hall
    obtain ⟨h1, h2, h3, h4, h5, h6, h7, h8, h9, h10⟩ := hall
    simp [h1, h2, h3, h4, h5, h6, h7, h8, h9, h10] at h
  · intro hne
    by_contra hb
    apply hne
    simp only [Bool.or_eq_true, decide_eq_true_eq, not_or, ne_eq,
      not_not] at hb
    obtain ⟨⟨⟨⟨⟨⟨⟨⟨⟨h1, h2⟩, h3⟩, h4⟩, h5⟩, h6⟩, h7⟩, h8⟩, h9⟩, h10⟩ := hb
    simp only [genOf, resolveSettings, resolveMime, GenSettings.mk.injEq]
    exact ⟨h1, h6, h2, h3, h4, h5, h7, h8, h9, h10⟩

theorem settingsHaveChanged_iff (st : GeminiState) (s : AssistantSettings) :
    settingsHaveChanged st s = true ↔
      (st.currentSettings = none
        ∨ ∃ cs, st.currentSettings = some cs
            ∧ genOf cs ≠ genOf (resolveSettings s)) := by
  cases hcur : st.currentSettings with
  | none => simp [settingsHaveChanged, hcur]
  | some cs =>
    rw [settingsHaveChanged_some cs s st hcur]
    simp [hcur]

/-- C4 (amended): `sendMessage` re-creates the chat session — with
history rebuilt from only the user and model turns of the supplied
messages — exactly when no session exists or the supplied settings differ,
after resolving the Google-Search/JSON MIME override, from the settings
last used, on every field other than `instanceName`; otherwise the
existing session state is reused unchanged. -/
theorem C4_session_recreation_amended (st : GeminiState)
    (s : AssistantSettings) (msgs : List ChatMessage) :
    ((sendMessagePre st s msgs).2 = true ↔
      (st.chat = none ∨ st.currentSettings = none
        ∨ ∃ cs, st.currentSettings = some cs
            ∧ genOf cs ≠ genOf (resolveSettings s)))
    ∧ ((sendMessagePre st s msgs).2 = true →
        (sendMessagePre st s msgs).1
          = { chat := some { config := chatCreationConfig s
                             history := historyOfMessages msgs }
              chatHistory := historyOfMessages msgs
              currentSettings := some (resolveSettings s) })
    ∧ ((sendMessagePre st s msgs).2 = false →
        (sendMessagePre st s msgs).1 = st) := by
  cases hb : (st.chat.isNone || settingsHaveChanged st s) with
  | false =>
    have hpre : sendMessagePre st s msgs = (st, false) := by
      unfold sendMessagePre
      rw [hb]
      rfl
    rw [hpre]
    simp only [Bool.or_eq_false_iff] at hb
    refine ⟨?_, by simp, fun _ => rfl⟩
    simp only [Bool.false_eq_true, false_iff]
    rintro (hchat | hrest)
    · rw [hchat] at hb
      simp at hb
    · have h2 := (settingsHaveChanged_iff st s).2 hrest
      rw [h2] at hb
      simp at hb
  | true =>
    have hpre : sendMessagePre st s msgs
        = (initChat { st with chatHistory := historyOfMessages msgs } s,
           true) := by
      unfold sendMessagePre
      rw [hb]
      rfl
    rw [hpre]
    refine ⟨?_, fun _ => rfl, by simp⟩
    simp only [true_iff]
    rcases Bool.or_eq_true_iff.1 hb with hchat | hchanged
    · exact Or.inl (Option.isNone_iff_eq_none.1 hchat)
    · exact Or.inr ((settingsHaveChanged_iff st s).1 hchanged)

end AIAssistant

namespace AIAssistant

/-- A sample settings object for exercising C4. -/
def c4Settings (n : Option String) : AssistantSettings :=
  { instanceName := n, personality := "p"
    responseMimeType := .textPlain
    temperature := none, topK := none, topP := none, seed := none
    enableGoogleSearch := false, disableThinking := false
    googleClientId := none, googleApiKey := none }

/-- A sample service state holding a session created from
`c4Settings n`. -/
def c4State (n : Option String) : GeminiState :=
  { chat := some { config := chatCreationConfig (c4Settings n)
                   history := [] }
    chatHistory := []
    currentSettings := some (c4Settings n) }

/-- Witness for C4 at concrete inputs: with no session the chat is created
with history rebuilt from the user/model turns only (the system turn is
dropped); with a session and identical settings the state is reused. -/
theorem C4_witness :
    (sendMessagePre
        { chat := none, chatHistory := [], currentSettings := none }
        (c4Settings none)
        [{ id := "1", role := .user, text := "hi", timestamp := 0 },
         { id := "2", role := .system, text := "sys", timestamp := 0 },
         { id := "3", role := .model, text := "yo", timestamp := 0 }]).1
      = { chat := some
            { config := chatCreationConfig (c4Settings none)
              history := [{ role := .user, text := "hi" },
                          { role := .model, text := "yo" }] }
          chatHistory := [{ role := .user, text := "hi" },
                          { role := .model, text := "yo" }]
          currentSettings := some (c4Settings none) }
    ∧ (sendMessagePre (c4State none) (c4Settings none) []).1
      = c4State none := by
  constructor
  · rw [(C4_session_recreation_amended
      { chat := none, chatHistory := [], currentSettings := none }
      (c4Settings none)
      [{ id := "1", role := .user, text := "hi", timestamp := 0 },
       { id := "2", role := .system, text := "sys", timestamp := 0 },
       { id := "3", role := .model, text := "yo", timestamp := 0 }]).2.1
      (by decide)]
    have hres : resolveSettings (c4Settings none) = c4Settings none := by
      decide
    rw [hres]
    decide
  · exact (C4_session_recreation_amended (c4State none) (c4Settings none)
      []).2.2 (by decide)

/-- C4 counterexample: settings that differ from those last used only in
`instanceName` — and hence differ as settings objects, also after the
MIME-type override — do NOT cause the session to be re-created, so
re-creation does not happen "exactly when" the supplied settings differ
from those last used. -/
theorem C4_counterexample :
    (sendMessagePre (c4State (some "A")) (c4Settings (some "B")) []).2
        = false
    ∧ resolveSettings (c4Settings (some "B")) ≠ c4Settings (some "A") := by
  refine ⟨by decide, by decide⟩

end AIAssistant

namespace AIAssistant

/-- The calendar-action shape as the claim words it: a JSON object whose
`action` is `add_event` with `event.title` and `event.date` strings,
`update_event` with an `event_query.title` string and an object-valued
(JavaScript `typeof === 'object'`, non-null) `updates` field, or
`delete_event` with an `event_query.title` string. -/
def specValidCalendarAction (j : JValue) : Bool :=
  match j with
  | .jobj _ =>
    (match jGet j "action" with
     | some (.jstr a) =>
       if a = "add_event" then
         jFieldIsString (jGet j "event") "title"
           && jFieldIsString (jGet j "event") "date"
       else if a = "update_event" then
         jFieldIsString (jGet j "event_query") "title"
           && (match jGet j "updates" with
               | some u => jTruthy u && jTypeofObject u
               | none => false)
       else if a = "delete_event" then
         jFieldIsString (jGet j "event_query") "title"
       else false
     | _ => false)
  | _ => false

theorem truthyOpt_none : truthyOpt none = false := rfl

theorem truthyOpt_some (v : JValue) : truthyOpt (some v) = jTruthy v := rfl

theorem truthyOpt_of_fieldIsString (v : Option JValue) (k : String)
    (h : jFieldIsString v k = true) : truthyOpt v = true := by
  cases v with
  | none => simp [jFieldIsString] at h
  | some o =>
    cases o <;> simp_all [jFieldIsString, jGet, truthyOpt, jTruthy]

theorem and_absorb_truthy (a b c : Bool)
    (hab : b = true → a = true) : ((a && b) && c) = (b && c) := by
  cases hb : b
  · simp
  · simp [hab hb]

/-- The claim-side action predicate coincides with the source's
`isValidCalendarAction`. -/
theorem specValid_eq_isValid (j : JValue) :
    specValidCalendarAction j = isValidCalendarAction j := by
  cases j with
  | jnull => rfl
  | jbool b => cases b <;> rfl
  | jnum s =>
    simp [specValidCalendarAction, isValidCalendarAction, jGet, jTruthy]
  | jstr s =>
    simp [specValidCalendarAction, isValidCalendarAction, jGet, jTruthy]
  | jarr xs =>
    simp [specValidCalendarAction, isValidCalendarAction, jGet, jTruthy]
  | jobj fields =>
    simp only [specValidCalendarAction, isValidCalendarAction, jTruthy,
      Bool.not_true, Bool.false_eq_true, if_false]
    cases hact : jGet (.jobj fields) "action" with
    | none => rfl
    | some v =>
      cases v with
      | jstr a =>
        by_cases ha1 : a = "add_event"
        · subst ha1
          cases hf1 : jFieldIsString (jGet (.jobj fields) "event") "title"
          · simp [hf1]
          · simp [hf1, truthyOpt_of_fieldIsString _ _ hf1]
        · by_cases ha2 : a = "update_event"
          · subst ha2
            cases hf1 : jFieldIsString
                (jGet (.jobj fields) "event_query") "title"
            · simp [ha1, hf1]
            · have ht := truthyOpt_of_fieldIsString _ _ hf1
              cases hu : jGet (.jobj fields) "updates" with
              | none =>
                simp [ha1, hf1, hu, ht, truthyOpt_none]
              | some u =>
                simp only [ha1, hf1, hu, ht, truthyOpt_some,
                  Bool.and_assoc]
                cases u <;> simp [jTruthy, hact, ha1, ht, hf1, hu]
          · by_cases ha3 : a = "delete_event"
            · subst ha3
              cases hf1 : jFieldIsString
                  (jGet (.jobj fields) "event_query") "title"
              · simp [ha1, ha2, hf1]
              · simp [ha1, ha2, hf1,
                  truthyOpt_of_fieldIsString _ _ hf1]
            · simp [ha1, ha2, ha3]
      | jnull => rfl
      | jbool b => rfl
      | jnum s => rfl
      | jarr xs => rfl
      | jobj fs => rfl

end AIAssistant

namespace AIAssistant

theorem processModelResponse_eq_some (cur : Option AssistantSettings)
    (text : String) (j : JValue) :
    processModelResponse cur text = some j ↔
      (cur.map (fun cs => cs.responseMimeType)
          = some MimeType.applicationJson
        ∧ text ≠ ""
        ∧ jparse (stripFence text) = some j
        ∧ isValidCalendarAction j = true) := by
  unfold processModelResponse
  cases cur with
  | none => simp
  | some cs =>
    by_cases hm : cs.responseMimeType = MimeType.applicationJson
    · by_cases htx : text = ""
      · rw [if_neg (by simp [htx])]
        simp [htx]
      · rw [if_pos (by simp [hm, htx])]
        cases hp : jparse (stripFence text) with
        | none => simp [htx]
        | some pj =>
          dsimp only
          by_cases hv : isValidCalendarAction pj = true
          · rw [if_pos hv]
            constructor
            · intro h
              obtain rfl : pj = j := Option.some.inj h
              exact ⟨by simp [hm], htx, rfl, hv⟩
            · intro h
              obtain ⟨hmime, htx2, hpj, hvj⟩ := h
              exact hpj
          · rw [if_neg hv]
            constructor
            · intro h
              exact absurd h (by simp)
            · intro h
              obtain ⟨hmime, htx2, hpj, hvj⟩ := h
              obtain rfl : pj = j := Option.some.inj hpj
              exact absurd hvj hv
    · rw [if_neg (by simp [hm])]
      simp [hm]

end AIAssistant

namespace AIAssistant

/-- C5: `sendMessage` returns a `parsedCalendarAction` exactly when the
active session's `responseMimeType` is `application/json` and the
(non-empty) reply text, after stripping an optional markdown code fence,
parses as JSON to an object of the shape the claim enumerates; in every
other case the reply text is returned with no parsed action.  The reply
text is always passed through as the response's `text`. -/
theorem C5_parsed_action_characterization (st : GeminiState)
    (s : AssistantSettings) (msgs : List ChatMessage) (modelText : String)
    (j : JValue) :
    (sendMessage st s msgs modelText).2.text = modelText
    ∧ ((sendMessage st s msgs modelText).2.parsedCalendarAction = some j ↔
        ((sendMessage st s msgs modelText).1.currentSettings.map
            (fun cs => cs.responseMimeType) = some MimeType.applicationJson
          ∧ modelText ≠ ""
          ∧ jparse (stripFence modelText) = some j
          ∧ specValidCalendarAction j = true)) := by
  refine ⟨rfl, ?_⟩
  rw [specValid_eq_isValid j]
  exact processModelResponse_eq_some
    ((sendMessagePre st s msgs).1.currentSettings) modelText j

end AIAssistant
